import Mathlib

/-!
# The configuration wizard's parameter resolution (`cmd/configure/helper.go`)

A shallow embedding of the methods of `CmdConfigure` defined in
`cmd/configure/helper.go`, and theorems about them.

* Go maps `map[string]interface{}` are association lists from keys to a tagged
  value (`Value`): the only dynamic types the file stores are `string` and
  `[]string`.
* The session (`*CmdConfigure`) is passed explicitly.  It carries the answers the
  user is going to give (`values`, `yesNo`, `choices`) and a record of every
  prompt and collaborator call made so far (`log`).
* Console output (`fmt.Println`) is not part of the model.
* Code of other packages (`templates`, `sponsor`, `mqtt`, `yaml`, ...) that the
  file calls is collected in `Env`.
-/

namespace Configure

/-! ## Data model -/

/-- Go `error` values, identified by their message. -/
abbrev Error := String

/-- The type `templates.TextLanguage`: a text in several languages. -/
structure TextLanguage where
  Generic : String
  DE : String
  EN : String
deriving DecidableEq, Repr, Inhabited

/-- The type `templates.Requirements`. -/
structure Requirements where
  EVCC : List String
  Description : TextLanguage
  URI : String
deriving DecidableEq, Repr, Inhabited

/-- The type `templates.Dependency`. -/
structure Dependency where
  Name : String
  Check : String
  Value : String
deriving DecidableEq, Repr, Inhabited

/-- The fields of `templates.Param` that `helper.go` reads or writes, with the
types it uses them at. A `nil` slice is the empty list. -/
structure Param where
  Name : String
  Description : TextLanguage
  Help : TextLanguage
  Dependencies : List Dependency
  Required : Bool
  Mask : Bool
  Advanced : Bool
  Deprecated : Bool
  Hidden : Bool
  Default : String
  Example : String
  Value : String
  ValueType : String
  ValidValues : List String
  Choice : List String
  Requirements : Requirements
deriving DecidableEq, Repr, Inhabited

/-- One entry of `ConfigDefaults.Modbus.Types`. -/
structure ModbusType where
  Description : TextLanguage
deriving DecidableEq, Repr, Inhabited

/-- The value `ConfigDefaults.Modbus`: the interface table and the interface
types. -/
structure ModbusConfig where
  Interfaces : List (String × List String)
  Types : List (String × ModbusType)
deriving DecidableEq, Repr, Inhabited

/-- The value `templates.ConfigDefaults`. -/
structure ConfigDefaults where
  Modbus : ModbusConfig
deriving DecidableEq, Repr, Inhabited

/-- The fields of `templates.Template` that `helper.go` reads or writes. -/
structure Template where
  Params : List Param
  Requirements : Requirements
  Render : String
  ConfigDefaults : ConfigDefaults
  title : String
deriving DecidableEq, Repr, Inhabited

/-- A dynamic value held in a `map[string]interface{}`: a `string` or a
`[]string`. -/
inductive Value where
  | str (s : String)
  | list (l : List String)
deriving DecidableEq, Repr, Inhabited

/-- A Go map `map[string]interface{}` with at most one entry per key. -/
abbrev Values := List (String × Value)

/-- Reading `m[k]`; `none` is the `nil` interface of a missing key. -/
def Values.get (m : Values) (k : String) : Option Value :=
  match m with
  | [] => none
  | (k', v) :: rest => if k' = k then some v else Values.get rest k

/-- The assignment `m[k] = v`. -/
def Values.set (m : Values) (k : String) (v : Value) : Values :=
  match m with
  | [] => [(k, v)]
  | (k', v') :: rest => if k' = k then (k, v) :: rest else (k', v') :: Values.set rest k v

/-! ## Constants of package `templates` -/

/-- Modelled from the spec: the constant `templates.ParamUsage`, declared outside
`helper.go`. -/
def ParamUsage : String := "usage"

/-- Modelled from the spec: the constant `templates.ParamModbus`, declared outside
`helper.go`. -/
def ParamModbus : String := "modbus"

/-- Modelled from the spec: the constant `templates.DependencyCheckEmpty`, declared outside
`helper.go`. -/
def DependencyCheckEmpty : String := "empty"

/-- Modelled from the spec: the constant `templates.DependencyCheckNotEmpty`, declared outside
`helper.go`. -/
def DependencyCheckNotEmpty : String := "notempty"

/-- Modelled from the spec: the constant `templates.DependencyCheckEqual`, declared outside
`helper.go`. -/
def DependencyCheckEqual : String := "equal"

/-- Modelled from the spec: the constant `templates.ParamValueTypeStringList`, declared outside
`helper.go`. -/
def ParamValueTypeStringList : String := "stringlist"

/-- Modelled from the spec: the constant `templates.ParamValueTypeBool`, declared outside
`helper.go`. -/
def ParamValueTypeBool : String := "bool"

/-- Modelled from the spec: the constant `templates.RequirementSponsorship`, declared outside
`helper.go`. -/
def RequirementSponsorship : String := "sponsorship"

/-- Modelled from the spec: the constant `templates.RequirementMQTT`, declared outside
`helper.go`. -/
def RequirementMQTT : String := "mqtt"

/-- Modelled from the spec: the constant `templates.RequirementEEBUS`, declared outside
`helper.go`. -/
def RequirementEEBUS : String := "eebus"

/-- Modelled from the spec: the constant `templates.TemplateRenderModeInstance`, declared outside
`helper.go`. -/
def TemplateRenderModeInstance : String := "instance"

/-- Modelled from the spec: `Template.ParamByName` of package `templates` is not
part of `helper.go`. A parameter name is a "unique identifier within a template";
the lookup walks the parameters in declaration order and returns the position and
a copy of the first one of that name, or `-1` and the zero `Param` when the
template has none. -/
def ParamByNameFrom (name : String) : List Param → Int → Int × Param
  | [], _ => (-1, default)
  | p :: rest, i => if p.Name = name then (i, p) else ParamByNameFrom name rest (i + 1)

/-- Modelled from the spec: the method `templateItem.ParamByName(name)`, see
`ParamByNameFrom`. -/
def Template.ParamByName (t : Template) (name : String) : Int × Param :=
  ParamByNameFrom name t.Params 0

/-! ## Dependencies of a parameter (`processParams`, lines 413-449) -/

/-- The `switch dep.Check` of `processParams` (lines 422-441): the new value of
`valid`, for the value `value` of the parameter the dependency names. A check that
is none of the three leaves `valid` as it is. -/
def dependencyCheck (additionalConfig : Values) (dep : Dependency) (value : String)
    (valid : Bool) : Bool :=
  if dep.Check = DependencyCheckEmpty then
    match additionalConfig.get dep.Name with
    | some v => decide (v = Value.str "")
    | none => decide (value = "")
  else if dep.Check = DependencyCheckNotEmpty then
    match additionalConfig.get dep.Name with
    | some v => decide (v ≠ Value.str "")
    | none => decide (value ≠ "")
  else if dep.Check = DependencyCheckEqual then
    match additionalConfig.get dep.Name with
    | some v => decide (v = Value.str dep.Value)
    | none => decide (value = dep.Value)
  else valid

/-- The loop `for _, dep := range param.Dependencies` of `processParams`, with the
local variable `valid` as an argument: the value returned is `valid` when the loop
is left, by a `break` or at the end of the list. -/
def dependencyLoop (templateItem : Template) (additionalConfig : Values) :
    Bool → List Dependency → Bool
  | valid, [] => valid
  | valid, dep :: rest =>
    let (i, valueParam) := templateItem.ParamByName dep.Name
    if i = -1 then valid
    else
      let value := valueParam.Value
      let valid := dependencyCheck additionalConfig dep value valid
      if !valid then valid else dependencyLoop templateItem additionalConfig valid rest

/-- The block `if param.Dependencies != nil { valid := true; ... }` of
`processParams`: `false` exactly when the block ends in `continue`. -/
def dependenciesValid (templateItem : Template) (additionalConfig : Values)
    (param : Param) : Bool :=
  dependencyLoop templateItem additionalConfig true param.Dependencies

/-! ## The session and its collaborators -/

/-- The type `DeviceCategory` and the constants of it that `helper.go` names. -/
inductive DeviceCategory where
  | DeviceCategoryCharger
  | DeviceCategoryGuidedSetup
  | DeviceCategoryGridMeter
  | DeviceCategoryPVMeter
  | DeviceCategoryBatteryMeter
  | other (name : String)
deriving DecidableEq, Repr, Inhabited

/-- One entry of the table `DeviceCategories`. The method `String()` of the
category filter is the conversion of the filter to `string`. -/
structure DeviceCategoryData where
  categoryFilter : String
  defaultName : String
deriving DecidableEq, Repr, Inhabited

/-- The type `DeviceTestResult`. -/
inductive DeviceTestResult where
  | DeviceTestResultValid
  | DeviceTestResultValidMissingMeter
  | DeviceTestResultInvalid
deriving DecidableEq, Repr, Inhabited

/-- The struct `question` handed to `askValue`. -/
structure question where
  label : String
  defaultValue : String
  exampleValue : String
  help : String
  valueType : String
  validValues : List String
  mask : Bool
  required : Bool
deriving DecidableEq, Repr, Inhabited

/-- A call that leaves the program: a prompt, with the answer it got, or a call of
an external collaborator. -/
inductive Event where
  | askValue (q : question) (answer : String)
  | askYesNo (label : String) (answer : Bool)
  | askChoice (label : String) (choices : List String) (answer : Nat)
  | ConfigureSponsorship (token : String)
  | RegisteredClient (broker user password : String)
  | eebusCertificate
  | configureEEBus
  | Scanln
  | Test
deriving DecidableEq, Repr, Inhabited

/-- The struct behind `c.configuration.config`. -/
structure globalConfig where
  SponsorToken : String
  MQTT : String
  EEBUS : String
deriving DecidableEq, Repr, Inhabited

/-- The struct behind `c.configuration`. -/
structure Configuration where
  config : globalConfig
deriving DecidableEq, Repr, Inhabited

/-- The session `*CmdConfigure`, together with the answers still to come from the
user (consumed from the front; when a list is used up the prompt yields the zero
value) and the record of the calls made so far. `addedDeviceIndex` is a Go `int`,
kept in the 64-bit range by `wrapInt`. -/
structure CmdConfigure where
  lang : String
  advancedMode : Bool
  expandedMode : Bool
  addedDeviceIndex : Int
  configuration : Configuration
  capabilitySMAHems : Bool
  errItemNotPresent : Error
  errDeviceNotValid : Error
  values : List String
  yesNo : List Bool
  choices : List Nat
  log : List Event
deriving DecidableEq, Repr, Inhabited

/-- The functions of other files and packages that `helper.go` calls and whose
result depends on their arguments only. -/
structure Env where
  /-- The method `c.localizedString(key, data)` for language `lang`. -/
  localizedString : String → String → List (String × String) → String
  /-- The method `ConfigDefaults.ParamByName(name)`. -/
  ConfigDefaultsParamByName : ConfigDefaults → String → Int × Param
  /-- The method `TextLanguage.String(lang)`. -/
  TextString : TextLanguage → String → String
  /-- The table `DeviceCategories`. -/
  DeviceCategories : DeviceCategory → DeviceCategoryData
  /-- The method `DeviceCategory.String()`. -/
  DeviceCategoryString : DeviceCategory → String
  /-- The function `strings.ToLower`. -/
  ToLower : String → String
  /-- The function `sponsor.ConfigureSponsorship`. -/
  ConfigureSponsorship : String → Option Error
  /-- The function `mqtt.RegisteredClient` for a broker, user and password. -/
  RegisteredClient : String → String → String → Option Error
  /-- The method `c.eebusCertificate()`. -/
  eebusCertificate : Except Error (List (String × String))
  /-- The method `c.configureEEBus(conf)`. -/
  configureEEBus : List (String × String) → Option Error
  /-- The function `yaml.Marshal`, on the key/value documents of this file. -/
  yamlMarshal : List (String × String) → Except Error String
  /-- The method `DeviceTest.Test()` of a test of a category, template and values. -/
  Test : DeviceCategory → Template → Values → Except Error DeviceTestResult
  /-- The method `Template.RenderProxyWithValues(values, lang)`. -/
  RenderProxyWithValues : Template → Values → String → Except Error String
  /-- The method `Template.RenderResult(mode, values)`. -/
  RenderResult : Template → String → Values → Except Error String
  /-- The method `Template.ModbusParams(modbusType, values)`, which changes both
  the template and the map. -/
  ModbusParams : Template → String → Values → Template × Values
  /-- The method `Template.ModbusValues(mode, values)`, which changes the
  template. -/
  ModbusValues : Template → String → Values → Template

/-- Modelled from the spec: the method `c.askValue(q)` of the prompt boundary,
defined outside `helper.go`: it yields the next answer of the user. -/
def askValue (q : question) (c : CmdConfigure) : String × CmdConfigure :=
  match c.values with
  | [] => ("", { c with log := c.log ++ [Event.askValue q ""] })
  | v :: rest => (v, { c with values := rest, log := c.log ++ [Event.askValue q v] })

/-- Modelled from the spec: the method `c.askYesNo(label)` of the prompt boundary,
defined outside `helper.go`: it yields the next yes/no answer of the user. -/
def askYesNo (label : String) (c : CmdConfigure) : Bool × CmdConfigure :=
  match c.yesNo with
  | [] => (false, { c with log := c.log ++ [Event.askYesNo label false] })
  | b :: rest => (b, { c with yesNo := rest, log := c.log ++ [Event.askYesNo label b] })

/-- Modelled from the spec: the method `c.askChoice(label, choices)` of the prompt
boundary, defined outside `helper.go`: it yields the index the user picks. -/
def askChoice (label : String) (choices : List String) (c : CmdConfigure) :
    Nat × CmdConfigure :=
  match c.choices with
  | [] => (0, { c with log := c.log ++ [Event.askChoice label choices 0] })
  | n :: rest => (n, { c with choices := rest, log := c.log ++ [Event.askChoice label choices n] })

/-- The assignment `c.configuration.config.SponsorToken = token`. -/
def CmdConfigure.setSponsorToken (c : CmdConfigure) (token : String) : CmdConfigure :=
  { c with configuration := { config := { c.configuration.config with SponsorToken := token } } }

/-- The assignment `c.configuration.config.MQTT = mqtt`. -/
def CmdConfigure.setMQTT (c : CmdConfigure) (mqtt : String) : CmdConfigure :=
  { c with configuration := { config := { c.configuration.config with MQTT := mqtt } } }

/-- The assignment `c.configuration.config.EEBUS = eebus`. -/
def CmdConfigure.setEEBUS (c : CmdConfigure) (eebus : String) : CmdConfigure :=
  { c with configuration := { config := { c.configuration.config with EEBUS := eebus } } }

/-- Appending a call to the record of the session. -/
def CmdConfigure.record (c : CmdConfigure) (e : Event) : CmdConfigure :=
  { c with log := c.log ++ [e] }

/-! ## Requirements -/

/-- The `question` with which `askSponsortoken` asks for the token (lines
239-242): a masked, required value. -/
def sponsortokenQuestion (env : Env) (lang : String) : question :=
  { label := env.localizedString lang "Requirements_Sponsorship_Token_Input" []
    defaultValue := "", exampleValue := "", help := "", valueType := ""
    validValues := [], mask := true, required := true }

/-- The method `askSponsortoken(required, feature)`; the two flags only choose the
headline that is printed. -/
def askSponsortoken (env : Env) (required feature : Bool) (c : CmdConfigure) :
    Option Error × CmdConfigure :=
  let _headline := (required, feature)
  let (yes, c) := askYesNo (env.localizedString c.lang "Requirements_Sponsorship_Token" []) c
  if !yes then (some c.errItemNotPresent, c)
  else
    let (sponsortoken, c) := askValue (sponsortokenQuestion env c.lang) c
    let c := c.record (Event.ConfigureSponsorship sponsortoken)
    match env.ConfigureSponsorship sponsortoken with
    | some err =>
      let q := env.localizedString c.lang "TestingDevice_AddFailed"
        [("Device", "Sponsorship Token")]
      let (yes, c) := askYesNo q c
      if yes then (none, c.setSponsorToken sponsortoken) else (some err, c)
    | none => (none, c.setSponsorToken sponsortoken)

/-- The method `processParamRequirements(param)`: the error of `askSponsortoken`
when the parameter requires a sponsorship and the session has no token yet. -/
def processParamRequirements (env : Env) (param : Param) (c : CmdConfigure) :
    Option Error × CmdConfigure :=
  if param.Requirements.EVCC.contains RequirementSponsorship
      && c.configuration.config.SponsorToken == "" then
    askSponsortoken env true true c
  else (none, c)

/-! ## Collecting values -/

/-- The `question` that `processInputConfig` hands to `askValue` (lines 516-535). -/
def inputQuestion (env : Env) (param : Param) (lang : String) : question :=
  let label := param.Name
  let langLabel := env.TextString param.Description lang
  let label := if langLabel ≠ "" then langLabel else label
  let help := env.TextString param.Help lang
  let help :=
    if param.Requirements.EVCC.contains RequirementSponsorship then
      help ++ "\n\n" ++ env.localizedString lang "Requirements_Sponsorship_Feature_Title" []
    else help
  { label := label, defaultValue := param.Default, exampleValue := param.Example
    help := help, valueType := param.ValueType, validValues := param.ValidValues
    mask := param.Mask, required := param.Required }

/-- The method `processInputConfig(param)`. -/
def processInputConfig (env : Env) (param : Param) (c : CmdConfigure) :
    String × CmdConfigure :=
  let (value, c) := askValue (inputQuestion env param c.lang) c
  if param.ValueType = ParamValueTypeBool ∧ value = "true" then
    match processParamRequirements env param c with
    | (some _, c) => ("false", c)
    | (none, c) => (value, c)
  else (value, c)

/-- The loop of `processListInputConfig`, bounded by `fuel` rounds, with the
values collected so far. -/
def processListInputConfigLoop (env : Env) (param : Param) :
    Nat → List String → CmdConfigure → List String × CmdConfigure
  | 0, values, c => (values, c)
  | fuel + 1, values, c =>
    let (newValue, c) := processInputConfig env param c
    let values := values ++ [newValue]
    if newValue = "" then (values, c)
    else
      let (more, c) := askYesNo ("  " ++ env.localizedString c.lang "Config_AddAnotherValue" []) c
      if !more then (values, c)
      else processListInputConfigLoop env param fuel values c

/-- The method `processListInputConfig(param)`. Every round takes an answer off
`c.values` and the loop ends on an empty answer, so `c.values.length + 1` rounds
are enough (`processListInputConfigLoop_fuel`). -/
def processListInputConfig (env : Env) (param : Param) (c : CmdConfigure) :
    List String × CmdConfigure :=
  processListInputConfigLoop env param (c.values.length + 1) [] c

/-- The `switch param.Name` of `processParams` (lines 451-487), for a parameter
whose dependencies hold. -/
def processParamSwitch (env : Env) (usageFilter : String) (param : Param)
    (additionalConfig : Values) (c : CmdConfigure) : Values × CmdConfigure :=
  if param.Name = ParamModbus then
    (additionalConfig.set param.Name (Value.str param.Value), c)
  else if param.Name = ParamUsage then
    if usageFilter ≠ "" then (additionalConfig.set param.Name (Value.str usageFilter), c)
    else (additionalConfig, c)
  else if (param.Advanced && !c.advancedMode) || param.Deprecated then
    (additionalConfig, c)
  else if param.Hidden ∧ param.Default ≠ "" then
    (additionalConfig.set param.Name (Value.str param.Default), c)
  else if param.ValueType = ParamValueTypeStringList then
    let (values, c) := processListInputConfig env param c
    let nonEmptyValues := values.filter (fun value => value ≠ "")
    (additionalConfig.set param.Name (Value.list nonEmptyValues), c)
  else
    let (value, c) := processInputConfig env param c
    if value ≠ "" then (additionalConfig.set param.Name (Value.str value), c)
    else (additionalConfig, c)

/-- One round of the loop `for _, param := range templateItem.Params` of
`processParams`. -/
def processParam (env : Env) (templateItem : Template) (usageFilter : String)
    (state : Values × CmdConfigure) (param : Param) : Values × CmdConfigure :=
  if dependenciesValid templateItem state.1 param then
    processParamSwitch env usageFilter param state.1 state.2
  else state

/-- The loop `for _, param := range templateItem.Params` of `processParams` over a
stretch `params` of the parameter list, from the map and session `state`. -/
def processParamsFrom (env : Env) (templateItem : Template) (deviceCategory : DeviceCategory)
    (params : List Param) (state : Values × CmdConfigure) : Values × CmdConfigure :=
  params.foldl
    (processParam env templateItem (env.DeviceCategories deviceCategory).categoryFilter) state

/-- The method `processParams(templateItem, deviceCategory)`: the map it returns
and the session it leaves. -/
def processParams (env : Env) (templateItem : Template) (deviceCategory : DeviceCategory)
    (c : CmdConfigure) : Values × CmdConfigure :=
  processParamsFrom env templateItem deviceCategory templateItem.Params ([], c)

/-! ## The modbus interface (`processModbusConfig`) -/

/-- Reading `config.Interfaces[choice]`: `none` for a key without an entry. -/
def ModbusConfig.interface (config : ModbusConfig) (choice : String) : Option (List String) :=
  (config.Interfaces.find? (fun e => e.1 = choice)).map (fun e => e.2)

/-- Reading `config.Types[itype].Description`: the zero value for a missing key. -/
def ModbusConfig.description (config : ModbusConfig) (itype : String) : TextLanguage :=
  match config.Types.find? (fun e => e.1 = itype) with
  | some e => e.2.Description
  | none => default

/-- The loop `for _, choice := range modbusParam.Choice` of `processModbusConfig`:
the titles `choices` and the interface types `choiceTypes` it collects. -/
def modbusChoices (env : Env) (lang : String) (config : ModbusConfig) :
    List String → List String × List String
  | [] => ([], [])
  | choice :: rest =>
    let (choices, choiceTypes) := modbusChoices env lang config rest
    match config.interface choice with
    | none => (choices, choiceTypes)
    | some itypes =>
      (itypes.map (fun itype => env.TextString (config.description itype) lang) ++ choices,
        itypes ++ choiceTypes)

/-- The assignment `templateItem.Params[index].Value = value`. -/
def Template.setParamValue (t : Template) (index : Int) (value : String) : Template :=
  { t with Params := t.Params.modify (fun p => { p with Value := value }) index.toNat }

/-- The method `processModbusConfig(templateItem, deviceCategory)`: the template
as the method leaves it. The result is `none` when the index given by `askChoice`
is outside `choiceTypes`, where the Go code stops with a runtime error. -/
def processModbusConfig (env : Env) (templateItem : Template)
    (deviceCategory : DeviceCategory) (c : CmdConfigure) : Option (Template × CmdConfigure) :=
  let _category := deviceCategory
  let (modbusIndex, modbusParam) := templateItem.ParamByName ParamModbus
  if modbusIndex = -1 then some (templateItem, c)
  else
    let config := templateItem.ConfigDefaults.Modbus
    let (choices, choiceTypes) := modbusChoices env c.lang config modbusParam.Choice
    if choices.length = 0 then some (templateItem, c)
    else
      let (index, c) :=
        if choices.length > 1 then
          askChoice (env.localizedString c.lang "Config_ModbusInterface" []) choices c
        else (0, c)
      match choiceTypes.get? index with
      | none => none
      | some choiceType =>
        let templateItem := templateItem.setParamValue modbusIndex choiceType
        let (templateItem, values) := env.ModbusParams templateItem choiceType []
        let templateItem := env.ModbusValues templateItem TemplateRenderModeInstance values
        some (templateItem, c)

/-- The method `processConfig(templateItem, deviceCategory)`. -/
def processConfig (env : Env) (templateItem : Template) (deviceCategory : DeviceCategory)
    (c : CmdConfigure) : Option ((Values × Template) × CmdConfigure) :=
  match processModbusConfig env templateItem deviceCategory c with
  | none => none
  | some (templateItem, c) =>
    let (values, c) := processParams env templateItem deviceCategory c
    some ((values, templateItem), c)

/-! ## Device requirements -/

/-- The loop of `configureMQTT`, bounded by `fuel` rounds. When the rounds are
used up the result is that of the statement after the loop. -/
def configureMQTTLoop (env : Env) (templateItem : Template) :
    Nat → Error → CmdConfigure → Except Error (List (String × String)) × CmdConfigure
  | 0, err, c => (Except.error ("failed configuring mqtt: " ++ err), c)
  | fuel + 1, _, c =>
    let paramHost := (env.ConfigDefaultsParamByName templateItem.ConfigDefaults "host").2
    let paramPort := (env.ConfigDefaultsParamByName templateItem.ConfigDefaults "port").2
    let paramUser := (env.ConfigDefaultsParamByName templateItem.ConfigDefaults "user").2
    let paramPassword :=
      (env.ConfigDefaultsParamByName templateItem.ConfigDefaults "password").2
    let ask := fun (p : Param) (mask required : Bool) (c : CmdConfigure) =>
      askValue
        { label := env.TextString p.Description c.lang
          defaultValue := "", exampleValue := "", help := "", valueType := ""
          validValues := [], mask := mask, required := required } c
    let (host, c) := ask paramHost false true c
    let (port, c) := ask paramPort false true c
    let (user, c) := ask paramUser false false c
    let (password, c) := ask paramPassword true false c
    let broker := host ++ ":" ++ port
    let mqttConfig := [("broker", broker), ("user", user), ("password", password)]
    let c := c.record (Event.RegisteredClient broker user password)
    match env.RegisteredClient broker user password with
    | none => (Except.ok mqttConfig, c)
    | some err =>
      let (again, c) := askYesNo (env.localizedString c.lang "TestingMQTTFailed" []) c
      if !again then (Except.error ("failed configuring mqtt: " ++ err), c)
      else configureMQTTLoop env templateItem fuel err c

/-- The method `configureMQTT(templateItem)`. Every further round takes an answer
off `c.yesNo`, so `c.yesNo.length + 1` rounds are enough
(`configureMQTTLoop_fuel`). -/
def configureMQTT (env : Env) (templateItem : Template) (c : CmdConfigure) :
    Except Error (List (String × String)) × CmdConfigure :=
  configureMQTTLoop env templateItem (c.yesNo.length + 1) "" c

/-- The sponsorship block of `processDeviceRequirements` (lines 138-143). -/
def requireSponsorship (env : Env) (templateItem : Template) (c : CmdConfigure) :
    Option Error × CmdConfigure :=
  if templateItem.Requirements.EVCC.contains RequirementSponsorship
      && c.configuration.config.SponsorToken == "" then
    askSponsortoken env true false c
  else (none, c)

/-- The MQTT block of `processDeviceRequirements` (lines 145-160). -/
def requireMQTT (env : Env) (templateItem : Template) (c : CmdConfigure) :
    Option Error × CmdConfigure :=
  if templateItem.Requirements.EVCC.contains RequirementMQTT
      && c.configuration.config.MQTT == "" then
    match configureMQTT env templateItem c with
    | (Except.error err, c) => (some err, c)
    | (Except.ok mqttConfig, c) =>
      match env.yamlMarshal mqttConfig with
      | Except.error err => (some err, c)
      | Except.ok mqttYaml => (none, c.setMQTT mqttYaml)
  else (none, c)

/-- The EEBUS block of `processDeviceRequirements` (lines 162-190). -/
def requireEEBUS (env : Env) (templateItem : Template) (c : CmdConfigure) :
    Option Error × CmdConfigure :=
  if templateItem.Requirements.EVCC.contains RequirementEEBUS then
    let pairing := fun (c : CmdConfigure) => ((none : Option Error), c.record Event.Scanln)
    if c.configuration.config.EEBUS == "" then
      let c := c.record Event.eebusCertificate
      match env.eebusCertificate with
      | Except.error err =>
        (some (env.localizedString c.lang "Requirements_EEBUS_Cert_Error" [] ++ ": " ++ err), c)
      | Except.ok eebusConfig =>
        let c := c.record Event.configureEEBus
        match env.configureEEBus eebusConfig with
        | some err => (some err, c)
        | none =>
          match env.yamlMarshal eebusConfig with
          | Except.error err => (some err, c)
          | Except.ok eebusYaml => pairing (c.setEEBUS eebusYaml)
    else pairing c
  else (none, c)

/-- The method `processDeviceRequirements(templateItem)`. -/
def processDeviceRequirements (env : Env) (templateItem : Template) (c : CmdConfigure) :
    Option Error × CmdConfigure :=
  match requireSponsorship env templateItem c with
  | (some err, c) => (some err, c)
  | (none, c) =>
    match requireMQTT env templateItem c with
    | (some err, c) => (some err, c)
    | (none, c) => requireEEBUS env templateItem c

/-! ## Device values (`processDeviceValues`) -/

/-- The fields of the struct `device` that `helper.go` writes. -/
structure device where
  Name : String
  Title : String
  Yaml : String
  ChargerHasMeter : Bool
deriving DecidableEq, Repr, Inhabited

/-- A Go `int` after an arithmetic operation: the result wrapped into the 64-bit
two's complement range. -/
def wrapInt (x : Int) : Int := (x + 2 ^ 63) % 2 ^ 64 - 2 ^ 63

/-- The loop `for item, value := range values` of `processDeviceValues`, in the
order of the association list: the title of the device. The result is `none` when
a value under a key that reads "title" is not a string, where the type assertion
`value.(string)` stops the Go code with a runtime error. -/
def deviceTitle (env : Env) : Values → String → Option String
  | [], title => some title
  | (item, value) :: rest, title =>
    if env.ToLower item ≠ "title" then deviceTitle env rest title
    else
      match value with
      | Value.str s => if s ≠ "" then deviceTitle env rest s else deviceTitle env rest title
      | Value.list _ => none

/-- The statement `c.addedDeviceIndex--`. -/
def CmdConfigure.decrementIndex (c : CmdConfigure) : CmdConfigure :=
  { c with addedDeviceIndex := wrapInt (c.addedDeviceIndex - 1) }

/-- The statement `c.addedDeviceIndex++`. -/
def CmdConfigure.incrementIndex (c : CmdConfigure) : CmdConfigure :=
  { c with addedDeviceIndex := wrapInt (c.addedDeviceIndex + 1) }

/-- The loop `for _, p := range templateItem.Params` of the expanded mode of
`processDeviceValues` (lines 99-104). -/
def expandName : List Param → Values × Template → Values × Template
  | [], state => state
  | p :: rest, (values, templateItem) =>
    if p.Name = "name" then
      expandName rest (values.set "name" (Value.str p.Value),
        { templateItem with Render := "name: \x7b\x7b .name \x7d\x7d\n" ++ templateItem.Render })
    else expandName rest (values, templateItem)

/-- The end of `processDeviceValues` (lines 85-115): the device is rendered. The
calls `param.Help.Shorten(c.lang)` act on copies of the parameters and are left
out. -/
def renderDevice (env : Env) (values : Values) (templateItem : Template)
    (device : Configure.device) (c : CmdConfigure) :
    (Configure.device × Option Error) × CmdConfigure :=
  let templateItem :=
    { templateItem with
      Params := templateItem.Params ++ [{ (default : Param) with Name := "name", Value := device.Name }] }
  if !c.expandedMode then
    match env.RenderProxyWithValues templateItem values c.lang with
    | Except.error err => ((device, some err), c.decrementIndex)
    | Except.ok b => (({ device with Yaml := b }, none), c)
  else
    let (values, templateItem) := expandName templateItem.Params (values, templateItem)
    match env.RenderResult templateItem TemplateRenderModeInstance values with
    | Except.error err => ((device, some err), c.decrementIndex)
    | Except.ok b => (({ device with Yaml := b }, none), c)

/-- The question asked when the test of the device fails (lines 71-74). -/
def addFailedQuestion (env : Env) (lang : String) (templateItem : Template)
    (deviceCategory : DeviceCategory) (categoryWithUsage : Bool) : String :=
  if categoryWithUsage then
    env.localizedString lang "TestingDevice_AddFailedUsage"
      [("Device", templateItem.title), ("Usage", env.DeviceCategoryString deviceCategory)]
  else env.localizedString lang "TestingDevice_AddFailed" [("Device", templateItem.title)]

/-- The method `processDeviceValues(values, templateItem, device, deviceCategory)`:
the device and error it returns and the session it leaves; `none` when the Go code
stops with a runtime error (see `deviceTitle`). -/
def processDeviceValues (env : Env) (values : Values) (templateItem : Template)
    (device : Configure.device) (deviceCategory : DeviceCategory) (c : CmdConfigure) :
    Option ((Configure.device × Option Error) × CmdConfigure) :=
  let c := c.incrementIndex
  let device :=
    { device with
      Name := (env.DeviceCategories deviceCategory).defaultName ++ toString c.addedDeviceIndex }
  let device := { device with Title := templateItem.title }
  match deviceTitle env values device.Title with
  | none => none
  | some title =>
    let device := { device with Title := title }
    let categoryWithUsage : Bool :=
      deviceCategory = DeviceCategory.DeviceCategoryPVMeter
        ∨ deviceCategory = DeviceCategory.DeviceCategoryBatteryMeter
        ∨ deviceCategory = DeviceCategory.DeviceCategoryGridMeter
    let c := c.record Event.Test
    match env.Test deviceCategory templateItem values with
    | Except.error _ =>
      let question := addFailedQuestion env c.lang templateItem deviceCategory categoryWithUsage
      let (yes, c) := askYesNo question c
      if !yes then some ((device, some c.errDeviceNotValid), c.decrementIndex)
      else some (renderDevice env values templateItem device c)
    | Except.ok testResult =>
      let device :=
        if deviceCategory = DeviceCategory.DeviceCategoryCharger
            ∧ testResult = DeviceTestResult.DeviceTestResultValid then
          { device with ChargerHasMeter := true }
        else device
      some (renderDevice env values templateItem device c)

/-! ## Concrete templates and sessions -/

/-- A parameter with a name and a value type, every other field zero. -/
def plainParam (name valueType : String) : Param :=
  { (default : Param) with Name := name, ValueType := valueType }

/-- A template made of parameters only. -/
def plainTemplate (params : List Param) : Template :=
  { (default : Template) with Params := params }

/-- A fresh session in which the user gives the listed answers. -/
def freshSession (values : List String) (yesNo : List Bool) (choices : List Nat) :
    CmdConfigure :=
  { lang := "en", advancedMode := false, expandedMode := false, addedDeviceIndex := 0
    configuration := { config := { SponsorToken := "", MQTT := "", EEBUS := "" } }
    capabilitySMAHems := false
    errItemNotPresent := "item not present", errDeviceNotValid := "device not valid"
    values := values, yesNo := yesNo, choices := choices, log := [] }

/-- An encoding of a document for the concrete runs: one `key: value` line per
entry, and a pair of braces for the empty document. -/
def sampleYaml : List (String × String) → String
  | [] => "\x7b\x7d\n"
  | [(k, v)] => k ++ ": " ++ v ++ "\n"
  | (k, v) :: rest => k ++ ": " ++ v ++ "\n" ++ sampleYaml rest

/-- Collaborators for the concrete runs: texts are shown in their generic form,
tokens other than "valid" are refused, the broker "localhost:1883" is the one that
answers, documents are encoded one `key: value` line per entry, PV meters get the
category filter "pv", and device tests and renderings succeed. -/
def sampleEnv : Env :=
  { localizedString := fun _ key _ => key
    ConfigDefaultsParamByName := fun _ name => (0, plainParam name "")
    TextString := fun t _ => t.Generic
    DeviceCategories := fun category =>
      match category with
      | DeviceCategory.DeviceCategoryPVMeter => { categoryFilter := "pv", defaultName := "pv" }
      | DeviceCategory.DeviceCategoryCharger => { categoryFilter := "", defaultName := "wallbox" }
      | _ => { categoryFilter := "", defaultName := "device" }
    DeviceCategoryString := fun _ => ""
    ToLower := String.toLower
    ConfigureSponsorship := fun token => if token = "valid" then none else some "invalid token"
    RegisteredClient := fun broker _ _ =>
      if broker = "localhost:1883" then none else some "no connection"
    eebusCertificate := Except.ok [("certificate", "cert")]
    configureEEBus := fun _ => none
    yamlMarshal := fun doc => Except.ok (sampleYaml doc)
    Test := fun _ _ _ => Except.ok DeviceTestResult.DeviceTestResultValid
    RenderProxyWithValues := fun t _ _ => Except.ok t.Render
    RenderResult := fun t _ _ => Except.ok t.Render
    ModbusParams := fun t _ values => (t, values)
    ModbusValues := fun t _ _ => t }


/-- The value a dependency on the parameter `valueParam` is compared with: the
entry of the map being built under the dependency's name when there is one, and
the `Value` field of `valueParam` otherwise. -/
def effectiveValue (additionalConfig : Values) (name : String) (valueParam : Param) : Value :=
  match additionalConfig.get name with
  | some v => v
  | none => Value.str valueParam.Value

/-- A template whose only parameter depends on a parameter that does not exist. -/
def absentDependencyTemplate : Template :=
  plainTemplate
    [{ plainParam "host" "" with
       Dependencies := [{ Name := "missing", Check := DependencyCheckEqual, Value := "x" }] }]

/-- A template in which "port" is asked for when "mode" equals "tcp"; the
parameter "mode" has the default "tcp" and is an advanced one. -/
def equalsDependencyTemplate : Template :=
  plainTemplate
    [{ plainParam "mode" "" with Default := "tcp", Advanced := true },
     { plainParam "port" "" with
       Dependencies := [{ Name := "mode", Check := DependencyCheckEqual, Value := "tcp" }] }]


/-- A template whose modbus parameter is flagged deprecated. -/
def deprecatedModbusTemplate : Template :=
  plainTemplate [{ plainParam ParamModbus "" with Deprecated := true, Value := "rs485serial" }]

/-- A template with a deprecated parameter "timeout" before a parameter "host". -/
def deprecatedTimeoutTemplate : Template :=
  plainTemplate
    [{ plainParam "timeout" "" with Deprecated := true, Default := "10s" }, plainParam "host" ""]

/-- A template whose only parameter is hidden, has a default and is an advanced
one. -/
def hiddenAdvancedTemplate : Template :=
  plainTemplate [{ plainParam "port" "" with Hidden := true, Default := "502", Advanced := true }]

/-- A template with a hidden parameter "port" with a default between two
parameters that are asked for. -/
def hiddenPortTemplate : Template :=
  plainTemplate
    [plainParam "host" "", { plainParam "port" "" with Hidden := true, Default := "502" },
     plainParam "user" ""]

/-- The parameter gets past the cases of the `switch` of `processParams` that do
not ask the user (lines 451-468): its name is neither "modbus" nor "usage", it is
not suppressed as an advanced or deprecated parameter, and it is not a hidden
parameter with a default. -/
def reachesPrompt (c : CmdConfigure) (param : Param) : Bool :=
  decide (param.Name ≠ ParamModbus) && decide (param.Name ≠ ParamUsage)
    && !((param.Advanced && !c.advancedMode) || param.Deprecated)
    && !(decide (param.Hidden = true ∧ param.Default ≠ ""))

/-- A template whose only parameter is a list of strings. -/
def hostListTemplate : Template :=
  plainTemplate [plainParam "hosts" ParamValueTypeStringList]

/-- A boolean parameter that requires a sponsorship. -/
def sponsoredFeature : Param :=
  { plainParam "enableFeature" ParamValueTypeBool with
    Requirements := { (default : Requirements) with EVCC := [RequirementSponsorship] } }

/-- A template with the boolean parameter `sponsoredFeature` before a parameter
"host". -/
def sponsoredFeatureTemplate : Template :=
  plainTemplate [sponsoredFeature, plainParam "host" ""]

/-- A template in which the usage parameter depends on the answer to
"integrated". -/
def dependentUsageTemplate : Template :=
  plainTemplate
    [plainParam "integrated" ParamValueTypeBool,
     { plainParam ParamUsage "" with
       Dependencies :=
        [{ Name := "integrated", Check := DependencyCheckEqual, Value := "false" }] }]

/-- A template with a usage parameter between two parameters that are asked
for. -/
def usageTemplate : Template :=
  plainTemplate [plainParam "host" "", plainParam ParamUsage "", plainParam "port" ""]

/-- The interface table of the concrete modbus templates: the key "rs485" stands
for two interface types, the key "tcpip" for one. -/
def sampleModbus : ModbusConfig :=
  { Interfaces := [("rs485", ["rs485serial", "rs485tcpip"]), ("tcpip", ["tcpip"])]
    Types :=
      [("rs485serial", { Description := { Generic := "Serial (USB-RS485 Adapter)", DE := "", EN := "" } }),
       ("rs485tcpip", { Description := { Generic := "Serial (Ethernet-RS485 Adapter)", DE := "", EN := "" } }),
       ("tcpip", { Description := { Generic := "TCP/IP", DE := "", EN := "" } })] }

/-- A template whose modbus parameter lists the choice keys `keys`. -/
def modbusTemplate (keys : List String) : Template :=
  { plainTemplate [plainParam "host" "", { plainParam ParamModbus "" with Choice := keys }] with
    ConfigDefaults := { Modbus := sampleModbus } }

/-- The collaborators of `sampleEnv`, with a device test that fails. -/
def failingTestEnv : Env :=
  { sampleEnv with Test := fun _ _ _ => Except.error "no response" }

/-- A device with empty fields. -/
def blankDevice : device :=
  { Name := "", Title := "", Yaml := "", ChargerHasMeter := false }

/-- The device "pv1". -/
def pvDevice : device := { blankDevice with Name := "pv1" }

/-- The fresh session after the first device was added. -/
def sessionAfterAdding : CmdConfigure :=
  { freshSession [] [] [] with addedDeviceIndex := 1, log := [Event.Test] }

/-- The fresh session after a PV meter failed its test and the user gave it up. -/
def sessionAfterGivingUp : CmdConfigure :=
  { freshSession [] [] [] with
    log := [Event.Test, Event.askYesNo "TestingDevice_AddFailedUsage" false] }

/-- A template that requires a sponsorship, an MQTT broker and EEBUS. -/
def demandingTemplate : Template :=
  { plainTemplate [plainParam "host" ""] with
    Requirements :=
      { (default : Requirements) with
        EVCC := [RequirementSponsorship, RequirementMQTT, RequirementEEBUS] } }

/-- The session in which the user enters the token "valid" and the broker
"localhost:1883". -/
def demandingSession : CmdConfigure :=
  freshSession ["valid", "localhost", "1883", "", ""] [true] []

/-- No question of the record that was flagged `required` got the empty string as
its answer: the prompt boundary kept to the flag. -/
def requiredAnswered (log : List Event) : Bool :=
  log.all fun e =>
    match e with
    | Event.askValue q answer => !q.required || decide (answer ≠ "")
    | _ => true

/-- The session `demandingSession` after the requirements of `demandingTemplate`
were met. -/
def demandingSessionDone : CmdConfigure :=
  (processDeviceRequirements sampleEnv demandingTemplate demandingSession).2
/-! ## Maps -/

theorem Values.get_set_self (m : Values) (k : String) (v : Value) :
    (m.set k v).get k = some v := by
  induction m with
  | nil => simp [Values.set, Values.get]
  | cons e rest ih =>
    obtain ⟨k', v'⟩ := e
    by_cases h : k' = k
    · simp [Values.set, Values.get, h]
    · simp [Values.set, Values.get, h, ih]

theorem Values.get_set_of_ne (m : Values) (k k' : String) (v : Value) (h : k' ≠ k) :
    (m.set k v).get k' = m.get k' := by
  induction m with
  | nil => simp [Values.set, Values.get, Ne.symm h]
  | cons e rest ih =>
    obtain ⟨k₀, v₀⟩ := e
    by_cases h₀ : k₀ = k
    · subst h₀
      simp [Values.set, Values.get, Ne.symm h]
    · simp [Values.set, Values.get, h₀, ih]

/-! ## Dependencies -/

theorem dependencyLoop_cons (templateItem : Template) (m : Values) (valid : Bool)
    (dep : Dependency) (rest : List Dependency) :
    dependencyLoop templateItem m valid (dep :: rest) =
      if (templateItem.ParamByName dep.Name).1 = -1 then valid
      else if dependencyCheck m dep (templateItem.ParamByName dep.Name).2.Value valid = false
        then false
      else dependencyLoop templateItem m true rest := by
  simp only [dependencyLoop]
  split
  · rfl
  · cases h : dependencyCheck m dep (templateItem.ParamByName dep.Name).2.Value valid <;> simp

theorem dependencyLoop_absent (templateItem : Template) (m : Values)
    (pre post : List Dependency) (dep : Dependency)
    (habsent : (templateItem.ParamByName dep.Name).1 = -1) (valid : Bool) :
    dependencyLoop templateItem m valid (pre ++ dep :: post)
      = dependencyLoop templateItem m valid pre := by
  induction pre generalizing valid with
  | nil => simp [dependencyLoop_cons, habsent, dependencyLoop]
  | cons d rest ih =>
    simp only [List.cons_append, dependencyLoop_cons, ih]

/-- C1 (as stated, refuted): in `absentDependencyTemplate` the dependency of "host"
names a parameter the template does not have (`ParamByName` gives index -1), and
still "host" is prompted for and its name is a key of the returned map. -/
theorem absent_dependency_not_skipped :
    (absentDependencyTemplate.ParamByName "missing").1 = -1
    ∧ (processParams sampleEnv absentDependencyTemplate (DeviceCategory.other "meter")
        (freshSession ["192.0.2.1"] [] [])).1.get "host" = some (Value.str "192.0.2.1")
    ∧ (processParams sampleEnv absentDependencyTemplate (DeviceCategory.other "meter")
        (freshSession ["192.0.2.1"] [] [])).2.log
        = [Event.askValue
            { label := "host", defaultValue := "", exampleValue := "", help := ""
              valueType := "", validValues := [], mask := false, required := false }
            "192.0.2.1"] := by
  decide

/-- C1 (amended): a dependency whose name matches no parameter of the template
(`ParamByName` gives index -1) ends the evaluation of the parameter's dependencies
with the verdict reached so far: the verdict is that of the dependencies listed
before it, the ones after it are not looked at, and when the ones before it hold
the parameter is not skipped but goes on to the `switch` that collects its value. -/
theorem absent_dependency_ends_evaluation (env : Env) (templateItem : Template)
    (usageFilter : String) (additionalConfig : Values) (c : CmdConfigure) (param : Param)
    (pre post : List Dependency) (dep : Dependency)
    (hdeps : param.Dependencies = pre ++ dep :: post)
    (habsent : (templateItem.ParamByName dep.Name).1 = -1) :
    dependenciesValid templateItem additionalConfig param
        = dependencyLoop templateItem additionalConfig true pre
    ∧ (dependencyLoop templateItem additionalConfig true pre = true →
        processParam env templateItem usageFilter (additionalConfig, c) param
          = processParamSwitch env usageFilter param additionalConfig c) := by
  have h : dependenciesValid templateItem additionalConfig param
      = dependencyLoop templateItem additionalConfig true pre := by
    unfold dependenciesValid
    rw [hdeps]
    exact dependencyLoop_absent templateItem additionalConfig pre post dep habsent true
  refine ⟨h, fun hpre => ?_⟩
  simp [processParam, h, hpre]

/-- C1 (amended), at `absentDependencyTemplate`: the parameter "host" is
collected. -/
theorem absent_dependency_ends_evaluation_witness :
    dependenciesValid absentDependencyTemplate [] (absentDependencyTemplate.Params.headD default)
        = dependencyLoop absentDependencyTemplate [] true []
    ∧ (dependencyLoop absentDependencyTemplate [] true [] = true →
        processParam sampleEnv absentDependencyTemplate "" ([], freshSession ["192.0.2.1"] [] [])
            (absentDependencyTemplate.Params.headD default)
          = processParamSwitch sampleEnv "" (absentDependencyTemplate.Params.headD default) []
              (freshSession ["192.0.2.1"] [] [])) :=
  absent_dependency_ends_evaluation sampleEnv absentDependencyTemplate "" []
    (freshSession ["192.0.2.1"] [] []) (absentDependencyTemplate.Params.headD default) []
    [] { Name := "missing", Check := DependencyCheckEqual, Value := "x" } (by decide) (by decide)

/-- C2 (as stated, refuted): in `equalsDependencyTemplate` the parameter "mode" has
no entry in the map being built (it is an advanced parameter and the session is
not in advanced mode) and its `Default` equals the literal "tcp" of the
dependency of "port", and still "port" is not active: it is skipped without a
prompt and is no key of the returned map. -/
theorem equals_dependency_ignores_default :
    equalsDependencyTemplate.ParamByName "mode"
        = (0, { plainParam "mode" "" with Default := "tcp", Advanced := true })
    ∧ (processParams sampleEnv equalsDependencyTemplate (DeviceCategory.other "meter")
        (freshSession ["502"] [] [])).1 = []
    ∧ (processParams sampleEnv equalsDependencyTemplate (DeviceCategory.other "meter")
        (freshSession ["502"] [] [])).2.log = []
    ∧ dependenciesValid equalsDependencyTemplate []
        { plainParam "port" "" with
          Dependencies := [{ Name := "mode", Check := DependencyCheckEqual, Value := "tcp" }] }
        = false := by
  decide

/-- C2 (amended): a parameter P whose only dependency is an "equal" check on a
parameter Q of the same template with literal L is active (it reaches the `switch`
that collects its value) if and only if Q's effective value equals L, where Q's
effective value is the entry already written under the dependency's name in the
map being built when there is one, and otherwise the `Value` field of Q (not its
`Default`). -/
theorem equals_dependency_active_iff (env : Env) (templateItem : Template)
    (usageFilter : String) (additionalConfig : Values) (c : CmdConfigure) (P Q : Param)
    (i : Int) (dep : Dependency)
    (hdeps : P.Dependencies = [dep]) (hcheck : dep.Check = DependencyCheckEqual)
    (hQ : templateItem.ParamByName dep.Name = (i, Q)) (hi : i ≠ -1) :
    (dependenciesValid templateItem additionalConfig P = true
        ↔ effectiveValue additionalConfig dep.Name Q = Value.str dep.Value)
    ∧ processParam env templateItem usageFilter (additionalConfig, c) P
        = if effectiveValue additionalConfig dep.Name Q = Value.str dep.Value then
            processParamSwitch env usageFilter P additionalConfig c
          else (additionalConfig, c) := by
  have h : dependenciesValid templateItem additionalConfig P
      = decide (effectiveValue additionalConfig dep.Name Q = Value.str dep.Value) := by
    unfold dependenciesValid
    rw [hdeps, dependencyLoop_cons, hQ]
    have h1 : DependencyCheckEqual ≠ DependencyCheckEmpty := by decide
    have h2 : DependencyCheckEqual ≠ DependencyCheckNotEmpty := by decide
    rcases hget : additionalConfig.get dep.Name with _ | v
    · by_cases hv : Q.Value = dep.Value <;>
        simp [hi, dependencyCheck, hcheck, h1, h2, effectiveValue, dependencyLoop, hget, hv]
    · by_cases hv : v = Value.str dep.Value <;>
        simp [hi, dependencyCheck, hcheck, h1, h2, effectiveValue, dependencyLoop, hget, hv]
  refine ⟨by simp [h], ?_⟩
  simp only [processParam, h]
  by_cases hv : effectiveValue additionalConfig dep.Name Q = Value.str dep.Value <;> simp [hv]

/-- C2 (amended), at a template in which "mode" carries the value "tcp": the
parameter "port" is active. -/
theorem equals_dependency_active_iff_witness :
    (dependenciesValid
          (plainTemplate [{ plainParam "mode" "" with Value := "tcp" }]) []
          { plainParam "port" "" with
            Dependencies := [{ Name := "mode", Check := DependencyCheckEqual, Value := "tcp" }] }
        = true
        ↔ effectiveValue [] "mode" { plainParam "mode" "" with Value := "tcp" }
            = Value.str "tcp")
    ∧ processParam sampleEnv (plainTemplate [{ plainParam "mode" "" with Value := "tcp" }]) ""
          ([], freshSession ["502"] [] [])
          { plainParam "port" "" with
            Dependencies := [{ Name := "mode", Check := DependencyCheckEqual, Value := "tcp" }] }
        = if effectiveValue [] "mode" { plainParam "mode" "" with Value := "tcp" }
              = Value.str "tcp" then
            processParamSwitch sampleEnv ""
              { plainParam "port" "" with
                Dependencies :=
                  [{ Name := "mode", Check := DependencyCheckEqual, Value := "tcp" }] }
              [] (freshSession ["502"] [] [])
          else ([], freshSession ["502"] [] []) :=
  equals_dependency_active_iff sampleEnv
    (plainTemplate [{ plainParam "mode" "" with Value := "tcp" }]) "" []
    (freshSession ["502"] [] [])
    { plainParam "port" "" with
      Dependencies := [{ Name := "mode", Check := DependencyCheckEqual, Value := "tcp" }] }
    { plainParam "mode" "" with Value := "tcp" } 0
    { Name := "mode", Check := DependencyCheckEqual, Value := "tcp" } rfl rfl (by decide)
    (by decide)

/-! ## One round of `processParams` -/

theorem processParamSwitch_map (env : Env) (usageFilter : String) (param : Param)
    (m : Values) (c : CmdConfigure) :
    (processParamSwitch env usageFilter param m c).1 = m
      ∨ ∃ v, (processParamSwitch env usageFilter param m c).1 = m.set param.Name v := by
  unfold processParamSwitch
  split
  · exact Or.inr ⟨_, rfl⟩
  · split
    · split
      · exact Or.inr ⟨_, rfl⟩
      · exact Or.inl rfl
    · split
      · exact Or.inl rfl
      · split
        · exact Or.inr ⟨_, rfl⟩
        · split
          · exact Or.inr ⟨_, rfl⟩
          · simp only []
            split
            · exact Or.inr ⟨_, rfl⟩
            · exact Or.inl rfl

theorem processParam_map (env : Env) (templateItem : Template) (usageFilter : String)
    (state : Values × CmdConfigure) (param : Param) :
    (processParam env templateItem usageFilter state param).1 = state.1
      ∨ ∃ v, (processParam env templateItem usageFilter state param).1
          = state.1.set param.Name v := by
  unfold processParam
  split
  · exact processParamSwitch_map env usageFilter param state.1 state.2
  · exact Or.inl rfl

theorem processParam_get_of_ne (env : Env) (templateItem : Template) (usageFilter : String)
    (state : Values × CmdConfigure) (param : Param) (k : String) (h : param.Name ≠ k) :
    (processParam env templateItem usageFilter state param).1.get k = state.1.get k := by
  rcases processParam_map env templateItem usageFilter state param with h1 | ⟨v, h1⟩
  · rw [h1]
  · rw [h1, Values.get_set_of_ne _ _ _ _ (Ne.symm h)]

theorem foldl_processParam_get_of_ne (env : Env) (templateItem : Template)
    (usageFilter : String) (params : List Param) (state : Values × CmdConfigure) (k : String)
    (h : ∀ q ∈ params, q.Name ≠ k) :
    (params.foldl (processParam env templateItem usageFilter) state).1.get k
      = state.1.get k := by
  induction params generalizing state with
  | nil => rfl
  | cons p rest ih =>
    rw [List.foldl_cons, ih _ (fun q hq => h q (List.mem_cons_of_mem _ hq)),
      processParam_get_of_ne _ _ _ _ _ _ (h p (List.mem_cons_self _ _))]

theorem processParam_deprecated (env : Env) (templateItem : Template) (usageFilter : String)
    (state : Values × CmdConfigure) (param : Param) (hdep : param.Deprecated = true)
    (hmodbus : param.Name ≠ ParamModbus) (husage : param.Name ≠ ParamUsage) :
    processParam env templateItem usageFilter state param = state := by
  unfold processParam processParamSwitch
  simp [hdep, hmodbus, husage]

/-! ## Deprecated parameters -/

/-- C3 (as stated, refuted): the only parameter of `deprecatedModbusTemplate` has
its `Deprecated` flag set, and its name "modbus" is a key of the map that
`processParams` returns. -/
theorem deprecated_modbus_is_written :
    (∀ p ∈ deprecatedModbusTemplate.Params, p.Deprecated = true)
    ∧ (processParams sampleEnv deprecatedModbusTemplate (DeviceCategory.other "meter")
        (freshSession [] [] [])).1.get "modbus" = some (Value.str "rs485serial") := by
  decide

/-- C3 (amended): for every template, device category, session mode and sequence
of prompt answers, the map returned by `processParams` has no key equal to a name
that is neither "modbus" nor "usage" and that only deprecated parameters of the
template carry, whatever their default, value or requirements are. (The two
reserved names are written before the `Deprecated` flag is looked at.) -/
theorem deprecated_never_in_map (env : Env) (templateItem : Template)
    (deviceCategory : DeviceCategory) (c : CmdConfigure) (name : String)
    (hmodbus : name ≠ ParamModbus) (husage : name ≠ ParamUsage)
    (hdeprecated : ∀ p ∈ templateItem.Params, p.Name = name → p.Deprecated = true) :
    (processParams env templateItem deviceCategory c).1.get name = none := by
  unfold processParams processParamsFrom
  generalize (env.DeviceCategories deviceCategory).categoryFilter = usageFilter
  have key : ∀ (params : List Param) (state : Values × CmdConfigure),
      (∀ p ∈ params, p.Name = name → p.Deprecated = true) → state.1.get name = none →
      (params.foldl (processParam env templateItem usageFilter) state).1.get name = none := by
    intro params
    induction params with
    | nil => intro state _ h; exact h
    | cons p rest ih =>
      intro state hall h
      rw [List.foldl_cons]
      apply ih _ (fun q hq => hall q (List.mem_cons_of_mem _ hq))
      by_cases hp : p.Name = name
      · rw [processParam_deprecated env templateItem usageFilter state p
          (hall p (List.mem_cons_self _ _) hp) (hp ▸ hmodbus) (hp ▸ husage)]
        exact h
      · rw [processParam_get_of_ne _ _ _ _ _ _ hp]
        exact h
  exact key templateItem.Params ([], c) hdeprecated rfl

/-- C3 (amended), at `deprecatedTimeoutTemplate`: "timeout" is no key of the
map. -/
theorem deprecated_never_in_map_witness :
    (processParams sampleEnv deprecatedTimeoutTemplate (DeviceCategory.other "meter")
      (freshSession ["192.0.2.1"] [] [])).1.get "timeout" = none :=
  deprecated_never_in_map sampleEnv deprecatedTimeoutTemplate (DeviceCategory.other "meter")
    (freshSession ["192.0.2.1"] [] []) "timeout" (by decide) (by decide) (by decide)

/-! ## The session mode is not changed by prompts -/

theorem askValue_advancedMode (q : question) (c : CmdConfigure) :
    (askValue q c).2.advancedMode = c.advancedMode := by
  unfold askValue; split <;> rfl

theorem askYesNo_advancedMode (label : String) (c : CmdConfigure) :
    (askYesNo label c).2.advancedMode = c.advancedMode := by
  unfold askYesNo; split <;> rfl

theorem askSponsortoken_advancedMode (env : Env) (required feature : Bool) (c : CmdConfigure) :
    (askSponsortoken env required feature c).2.advancedMode = c.advancedMode := by
  unfold askSponsortoken
  simp only []
  split
  · simp [askYesNo_advancedMode]
  · split
    · split <;>
        simp [CmdConfigure.setSponsorToken, CmdConfigure.record, askYesNo_advancedMode,
          askValue_advancedMode]
    · simp [CmdConfigure.setSponsorToken, CmdConfigure.record, askYesNo_advancedMode,
        askValue_advancedMode]

theorem processParamRequirements_advancedMode (env : Env) (param : Param) (c : CmdConfigure) :
    (processParamRequirements env param c).2.advancedMode = c.advancedMode := by
  unfold processParamRequirements
  split
  · exact askSponsortoken_advancedMode env true true c
  · rfl

/-- The result of `processInputConfig` in terms of the answer of `askValue` and
the verdict of `processParamRequirements`. -/
theorem processInputConfig_eq (env : Env) (param : Param) (c : CmdConfigure) :
    processInputConfig env param c =
      if param.ValueType = ParamValueTypeBool
          ∧ (askValue (inputQuestion env param c.lang) c).1 = "true" then
        (if (processParamRequirements env param
              (askValue (inputQuestion env param c.lang) c).2).1.isSome
          then "false" else (askValue (inputQuestion env param c.lang) c).1,
         (processParamRequirements env param (askValue (inputQuestion env param c.lang) c).2).2)
      else askValue (inputQuestion env param c.lang) c := by
  unfold processInputConfig
  simp only []
  split
  · split <;> rename_i heq <;> simp [heq]
  · rfl

theorem processInputConfig_advancedMode (env : Env) (param : Param) (c : CmdConfigure) :
    (processInputConfig env param c).2.advancedMode = c.advancedMode := by
  rw [processInputConfig_eq]
  split
  · simp [processParamRequirements_advancedMode, askValue_advancedMode]
  · exact askValue_advancedMode _ c

theorem processListInputConfigLoop_advancedMode (env : Env) (param : Param) (fuel : Nat)
    (values : List String) (c : CmdConfigure) :
    (processListInputConfigLoop env param fuel values c).2.advancedMode = c.advancedMode := by
  induction fuel generalizing values c with
  | zero => rfl
  | succ n ih =>
    unfold processListInputConfigLoop
    simp only []
    split
    · exact processInputConfig_advancedMode env param c
    · split
      · simp [askYesNo_advancedMode, processInputConfig_advancedMode]
      · rw [ih]
        simp [askYesNo_advancedMode, processInputConfig_advancedMode]

theorem processParam_advancedMode (env : Env) (templateItem : Template) (usageFilter : String)
    (state : Values × CmdConfigure) (param : Param) :
    (processParam env templateItem usageFilter state param).2.advancedMode
      = state.2.advancedMode := by
  unfold processParam processParamSwitch
  split
  · split
    · rfl
    · split
      · split <;> rfl
      · split
        · rfl
        · split
          · rfl
          · split
            · exact processListInputConfigLoop_advancedMode env param _ _ _
            · simp only []
              split <;> exact processInputConfig_advancedMode env param _
  · rfl

theorem foldl_processParam_advancedMode (env : Env) (templateItem : Template)
    (usageFilter : String) (params : List Param) (state : Values × CmdConfigure) :
    (params.foldl (processParam env templateItem usageFilter) state).2.advancedMode
      = state.2.advancedMode := by
  induction params generalizing state with
  | nil => rfl
  | cons p rest ih => rw [List.foldl_cons, ih, processParam_advancedMode]

/-! ## Parameters between the ones before and the ones after them -/

theorem processParams_split (env : Env) (templateItem : Template)
    (deviceCategory : DeviceCategory) (c : CmdConfigure) (pre post : List Param) (P : Param)
    (hparams : templateItem.Params = pre ++ P :: post) :
    processParams env templateItem deviceCategory c
      = processParamsFrom env templateItem deviceCategory post
          (processParam env templateItem (env.DeviceCategories deviceCategory).categoryFilter
            (processParamsFrom env templateItem deviceCategory pre ([], c)) P) := by
  unfold processParams processParamsFrom
  rw [hparams, List.foldl_append, List.foldl_cons]

theorem processParamsFrom_get_of_ne (env : Env) (templateItem : Template)
    (deviceCategory : DeviceCategory) (params : List Param) (state : Values × CmdConfigure)
    (k : String) (h : ∀ q ∈ params, q.Name ≠ k) :
    (processParamsFrom env templateItem deviceCategory params state).1.get k
      = state.1.get k :=
  foldl_processParam_get_of_ne env templateItem _ params state k h

theorem processParamsFrom_advancedMode (env : Env) (templateItem : Template)
    (deviceCategory : DeviceCategory) (params : List Param) (state : Values × CmdConfigure) :
    (processParamsFrom env templateItem deviceCategory params state).2.advancedMode
      = state.2.advancedMode :=
  foldl_processParam_advancedMode env templateItem _ params state

/-! ## Hidden parameters -/

/-- C4 (as stated, refuted): the only parameter of `hiddenAdvancedTemplate` is
hidden, has a non-empty default and is not deprecated, and the map that
`processParams` returns for a session outside the advanced mode has no entry for
it. -/
theorem hidden_advanced_is_skipped :
    (∀ p ∈ hiddenAdvancedTemplate.Params,
        p.Hidden = true ∧ p.Default ≠ "" ∧ p.Deprecated = false)
    ∧ (processParams sampleEnv hiddenAdvancedTemplate (DeviceCategory.other "meter")
        (freshSession [] [] [])).1.get "port" = none := by
  decide

/-- C4 (amended): a parameter P that is hidden, has a non-empty default and is not
deprecated, whose name is neither "modbus" nor "usage", that is not suppressed as
an advanced parameter (it is not advanced, or the session is in advanced mode),
whose dependencies hold when the loop reaches it and whose name no later
parameter carries: the map returned by `processParams` maps P's name to exactly
P's default, and the round of the loop for P leaves the session as it was (no
prompt is invoked, no answer is consumed). -/
theorem hidden_default_is_written (env : Env) (templateItem : Template)
    (deviceCategory : DeviceCategory) (c : CmdConfigure) (pre post : List Param) (P : Param)
    (hparams : templateItem.Params = pre ++ P :: post)
    (hhidden : P.Hidden = true) (hdefault : P.Default ≠ "") (hdeprecated : P.Deprecated = false)
    (hmodbus : P.Name ≠ ParamModbus) (husage : P.Name ≠ ParamUsage)
    (hadvanced : P.Advanced = true → c.advancedMode = true)
    (hvalid : dependenciesValid templateItem
      (processParamsFrom env templateItem deviceCategory pre ([], c)).1 P = true)
    (hlater : ∀ q ∈ post, q.Name ≠ P.Name) :
    (processParams env templateItem deviceCategory c).1.get P.Name = some (Value.str P.Default)
    ∧ (processParam env templateItem (env.DeviceCategories deviceCategory).categoryFilter
        (processParamsFrom env templateItem deviceCategory pre ([], c)) P).2
        = (processParamsFrom env templateItem deviceCategory pre ([], c)).2 := by
  have hmode : (processParamsFrom env templateItem deviceCategory pre ([], c)).2.advancedMode
      = c.advancedMode := processParamsFrom_advancedMode env templateItem deviceCategory pre _
  have hskip : (P.Advanced && !c.advancedMode) = false := by
    cases hA : P.Advanced
    · rfl
    · simp [hadvanced hA]
  have hstep : processParam env templateItem (env.DeviceCategories deviceCategory).categoryFilter
      (processParamsFrom env templateItem deviceCategory pre ([], c)) P
      = ((processParamsFrom env templateItem deviceCategory pre ([], c)).1.set P.Name
          (Value.str P.Default),
         (processParamsFrom env templateItem deviceCategory pre ([], c)).2) := by
    unfold processParam processParamSwitch
    simp [hvalid, hmodbus, husage, hmode, hskip, hdeprecated, hhidden, hdefault]
  refine ⟨?_, by rw [hstep]⟩
  rw [processParams_split env templateItem deviceCategory c pre post P hparams,
    processParamsFrom_get_of_ne _ _ _ _ _ _ hlater, hstep]
  exact Values.get_set_self _ _ _

/-- C4 (amended), at `hiddenPortTemplate`: "port" is mapped to its default "502"
and the user is not asked for it. -/
theorem hidden_default_is_written_witness :
    (processParams sampleEnv hiddenPortTemplate (DeviceCategory.other "meter")
        (freshSession ["192.0.2.1", "admin"] [] [])).1.get "port" = some (Value.str "502")
    ∧ (processParam sampleEnv hiddenPortTemplate
        (sampleEnv.DeviceCategories (DeviceCategory.other "meter")).categoryFilter
        (processParamsFrom sampleEnv hiddenPortTemplate (DeviceCategory.other "meter")
          [plainParam "host" ""] ([], freshSession ["192.0.2.1", "admin"] [] []))
        { plainParam "port" "" with Hidden := true, Default := "502" }).2
        = (processParamsFrom sampleEnv hiddenPortTemplate (DeviceCategory.other "meter")
          [plainParam "host" ""] ([], freshSession ["192.0.2.1", "admin"] [] [])).2 :=
  hidden_default_is_written sampleEnv hiddenPortTemplate (DeviceCategory.other "meter")
    (freshSession ["192.0.2.1", "admin"] [] []) [plainParam "host" ""] [plainParam "user" ""]
    { plainParam "port" "" with Hidden := true, Default := "502" }
    rfl rfl (by decide) rfl (by decide) (by decide) (by decide) (by decide) (by decide)

/-! ## Parameters the user is asked for -/

theorem askValue_fst (q : question) (c : CmdConfigure) :
    (askValue q c).1 = c.values.headD "" := by
  unfold askValue; split <;> rename_i h <;> simp [h]

theorem processParam_of_reachesPrompt (env : Env) (templateItem : Template)
    (usageFilter : String) (state : Values × CmdConfigure) (param : Param)
    (hvalid : dependenciesValid templateItem state.1 param = true)
    (hreach : reachesPrompt state.2 param = true) :
    processParam env templateItem usageFilter state param =
      if param.ValueType = ParamValueTypeStringList then
        (state.1.set param.Name
          (Value.list ((processListInputConfig env param state.2).1.filter
            (fun value => value ≠ ""))),
          (processListInputConfig env param state.2).2)
      else if (processInputConfig env param state.2).1 ≠ "" then
        (state.1.set param.Name (Value.str (processInputConfig env param state.2).1),
          (processInputConfig env param state.2).2)
      else (state.1, (processInputConfig env param state.2).2) := by
  simp only [reachesPrompt, Bool.and_eq_true, decide_eq_true_eq, Bool.not_eq_true',
    decide_eq_false_iff_not] at hreach
  obtain ⟨⟨⟨h1, h2⟩, h3⟩, h4⟩ := hreach
  unfold processParam processParamSwitch
  rw [if_pos hvalid, if_neg h1, if_neg h2, h3]
  simp only [Bool.false_eq_true, if_false, if_neg h4]

theorem processListInputConfig_of_empty_answer (env : Env) (param : Param) (c : CmdConfigure)
    (hanswer : c.values.headD "" = "") :
    processListInputConfig env param c
      = ([""], (askValue (inputQuestion env param c.lang) c).2) := by
  have h1 : (askValue (inputQuestion env param c.lang) c).1 = "" := by
    rw [askValue_fst]; exact hanswer
  have h2 : processInputConfig env param c = askValue (inputQuestion env param c.lang) c := by
    rw [processInputConfig_eq, h1]
    simp
  unfold processListInputConfig processListInputConfigLoop
  simp only [h2, h1, List.nil_append, if_true]

/-! ## Lists of strings -/

/-- C5 (as stated, refuted): the user enters no value for the list parameter "hosts"
of `hostListTemplate` (the first answer is the empty string), and the map that
`processParams` returns has the key "hosts", with the empty sequence as value. -/
theorem empty_list_is_written :
    (freshSession [""] [] []).values.headD "" = ""
    ∧ (processParams sampleEnv hostListTemplate (DeviceCategory.other "meter")
        (freshSession [""] [] [])).1.get "hosts" = some (Value.list [])
    ∧ (processParams sampleEnv hostListTemplate (DeviceCategory.other "meter")
        (freshSession [""] [] [])).1.get "hosts" ≠ none := by
  decide

/-- C5 (amended): for every active list-of-string parameter P (its dependencies
hold when the loop reaches it and it gets to the prompt) for which the user enters
no value (the first answer is the empty string), the map returned by
`processParams` has the key P's name with the empty sequence as value (not a
singleton containing the empty string), provided no later parameter carries P's
name; the round of the loop for P asks the user once. -/
theorem empty_list_is_empty_sequence (env : Env) (templateItem : Template)
    (deviceCategory : DeviceCategory) (c : CmdConfigure) (pre post : List Param) (P : Param)
    (hparams : templateItem.Params = pre ++ P :: post)
    (hlist : P.ValueType = ParamValueTypeStringList)
    (hvalid : dependenciesValid templateItem
      (processParamsFrom env templateItem deviceCategory pre ([], c)).1 P = true)
    (hreach : reachesPrompt c P = true)
    (hanswer :
      (processParamsFrom env templateItem deviceCategory pre ([], c)).2.values.headD "" = "")
    (hlater : ∀ q ∈ post, q.Name ≠ P.Name) :
    (processParams env templateItem deviceCategory c).1.get P.Name = some (Value.list [])
    ∧ (processParam env templateItem (env.DeviceCategories deviceCategory).categoryFilter
        (processParamsFrom env templateItem deviceCategory pre ([], c)) P).2
        = (askValue
            (inputQuestion env P
              (processParamsFrom env templateItem deviceCategory pre ([], c)).2.lang)
            (processParamsFrom env templateItem deviceCategory pre ([], c)).2).2 := by
  have hreach' : reachesPrompt
      (processParamsFrom env templateItem deviceCategory pre ([], c)).2 P = true := by
    unfold reachesPrompt at hreach ⊢
    rw [processParamsFrom_advancedMode]
    exact hreach
  have hstep := processParam_of_reachesPrompt env templateItem
    (env.DeviceCategories deviceCategory).categoryFilter
    (processParamsFrom env templateItem deviceCategory pre ([], c)) P hvalid hreach'
  rw [if_pos hlist, processListInputConfig_of_empty_answer env P _ hanswer] at hstep
  refine ⟨?_, by rw [hstep]⟩
  rw [processParams_split env templateItem deviceCategory c pre post P hparams,
    processParamsFrom_get_of_ne _ _ _ _ _ _ hlater, hstep]
  simp [Values.get_set_self]

/-- C5 (amended), at `hostListTemplate`: "hosts" is mapped to the empty
sequence. -/
theorem empty_list_is_empty_sequence_witness :
    (processParams sampleEnv hostListTemplate (DeviceCategory.other "meter")
        (freshSession [""] [] [])).1.get "hosts" = some (Value.list [])
    ∧ (processParam sampleEnv hostListTemplate
        (sampleEnv.DeviceCategories (DeviceCategory.other "meter")).categoryFilter
        (processParamsFrom sampleEnv hostListTemplate (DeviceCategory.other "meter") []
          ([], freshSession [""] [] [])) (plainParam "hosts" ParamValueTypeStringList)).2
        = (askValue
            (inputQuestion sampleEnv (plainParam "hosts" ParamValueTypeStringList)
              (processParamsFrom sampleEnv hostListTemplate (DeviceCategory.other "meter") []
                ([], freshSession [""] [] [])).2.lang)
            (processParamsFrom sampleEnv hostListTemplate (DeviceCategory.other "meter") []
              ([], freshSession [""] [] [])).2).2 :=
  empty_list_is_empty_sequence sampleEnv hostListTemplate (DeviceCategory.other "meter")
    (freshSession [""] [] []) [] [] (plainParam "hosts" ParamValueTypeStringList)
    rfl rfl (by decide) (by decide) (by decide) (by decide)

/-! ## Boolean parameters with a requirement -/

/-- C7: a boolean parameter P that reaches the prompt and for which the user
answers "true", when the requirement gate `processParamRequirements` fails:
`processInputConfig` returns "false", `processParams` does not abort but writes
"false" under P's name and runs the loop over the remaining parameters from there,
and the returned map holds "false" for P (when no later parameter carries P's
name). -/
theorem failed_requirement_gives_false (env : Env) (templateItem : Template)
    (deviceCategory : DeviceCategory) (c : CmdConfigure) (pre post : List Param) (P : Param)
    (err : Error)
    (hparams : templateItem.Params = pre ++ P :: post)
    (hbool : P.ValueType = ParamValueTypeBool)
    (hvalid : dependenciesValid templateItem
      (processParamsFrom env templateItem deviceCategory pre ([], c)).1 P = true)
    (hreach : reachesPrompt c P = true)
    (hanswer :
      (processParamsFrom env templateItem deviceCategory pre ([], c)).2.values.headD ""
        = "true")
    (hgate :
      (processParamRequirements env P
        (askValue
          (inputQuestion env P
            (processParamsFrom env templateItem deviceCategory pre ([], c)).2.lang)
          (processParamsFrom env templateItem deviceCategory pre ([], c)).2).2).1 = some err) :
    (processInputConfig env P
        (processParamsFrom env templateItem deviceCategory pre ([], c)).2).1 = "false"
    ∧ processParams env templateItem deviceCategory c
        = processParamsFrom env templateItem deviceCategory post
            ((processParamsFrom env templateItem deviceCategory pre ([], c)).1.set P.Name
              (Value.str "false"),
             (processParamRequirements env P
              (askValue
                (inputQuestion env P
                  (processParamsFrom env templateItem deviceCategory pre ([], c)).2.lang)
                (processParamsFrom env templateItem deviceCategory pre ([], c)).2).2).2)
    ∧ ((∀ q ∈ post, q.Name ≠ P.Name) →
        (processParams env templateItem deviceCategory c).1.get P.Name
          = some (Value.str "false")) := by
  have hreach' : reachesPrompt
      (processParamsFrom env templateItem deviceCategory pre ([], c)).2 P = true := by
    unfold reachesPrompt at hreach ⊢
    rw [processParamsFrom_advancedMode]
    exact hreach
  have hinput : processInputConfig env P
      (processParamsFrom env templateItem deviceCategory pre ([], c)).2
      = ("false", (processParamRequirements env P
          (askValue
            (inputQuestion env P
              (processParamsFrom env templateItem deviceCategory pre ([], c)).2.lang)
            (processParamsFrom env templateItem deviceCategory pre ([], c)).2).2).2) := by
    rw [processInputConfig_eq, if_pos ⟨hbool, by rw [askValue_fst]; exact hanswer⟩, hgate]
    simp
  have hnolist : P.ValueType ≠ ParamValueTypeStringList := by rw [hbool]; decide
  have hstep := processParam_of_reachesPrompt env templateItem
    (env.DeviceCategories deviceCategory).categoryFilter
    (processParamsFrom env templateItem deviceCategory pre ([], c)) P hvalid hreach'
  rw [if_neg hnolist, hinput] at hstep
  simp only [ne_eq, String.reduceEq, not_false_eq_true, if_true] at hstep
  have hall := processParams_split env templateItem deviceCategory c pre post P hparams
  rw [hstep] at hall
  refine ⟨by rw [hinput], hall, fun hlater => ?_⟩
  rw [hall, processParamsFrom_get_of_ne _ _ _ _ _ _ hlater]
  exact Values.get_set_self _ _ _

/-- C7, at `sponsoredFeatureTemplate`: the user answers "true" and then declines
to enter a token; "enableFeature" is "false" in the map and "host" is still asked
for. -/
theorem failed_requirement_gives_false_witness :
    (processInputConfig sampleEnv sponsoredFeature
        (processParamsFrom sampleEnv sponsoredFeatureTemplate (DeviceCategory.other "meter") []
          ([], freshSession ["true", "192.0.2.1"] [false] [])).2).1 = "false"
    ∧ processParams sampleEnv sponsoredFeatureTemplate (DeviceCategory.other "meter")
          (freshSession ["true", "192.0.2.1"] [false] [])
        = processParamsFrom sampleEnv sponsoredFeatureTemplate (DeviceCategory.other "meter")
            [plainParam "host" ""]
            ((processParamsFrom sampleEnv sponsoredFeatureTemplate
                (DeviceCategory.other "meter") []
                ([], freshSession ["true", "192.0.2.1"] [false] [])).1.set sponsoredFeature.Name
              (Value.str "false"),
             (processParamRequirements sampleEnv sponsoredFeature
              (askValue
                (inputQuestion sampleEnv sponsoredFeature
                  (processParamsFrom sampleEnv sponsoredFeatureTemplate
                    (DeviceCategory.other "meter") []
                    ([], freshSession ["true", "192.0.2.1"] [false] [])).2.lang)
                (processParamsFrom sampleEnv sponsoredFeatureTemplate
                  (DeviceCategory.other "meter") []
                  ([], freshSession ["true", "192.0.2.1"] [false] [])).2).2).2)
    ∧ ((∀ q ∈ [plainParam "host" ""], q.Name ≠ sponsoredFeature.Name) →
        (processParams sampleEnv sponsoredFeatureTemplate (DeviceCategory.other "meter")
          (freshSession ["true", "192.0.2.1"] [false] [])).1.get sponsoredFeature.Name
          = some (Value.str "false")) :=
  failed_requirement_gives_false sampleEnv sponsoredFeatureTemplate
    (DeviceCategory.other "meter") (freshSession ["true", "192.0.2.1"] [false] []) []
    [plainParam "host" ""] sponsoredFeature "item not present" rfl rfl (by decide) (by decide)
    (by decide) (by decide)


/-! ## The usage parameter -/

theorem processParam_usage (env : Env) (templateItem : Template) (usageFilter : String)
    (state : Values × CmdConfigure) (param : Param) (hname : param.Name = ParamUsage) :
    processParam env templateItem usageFilter state param =
      if dependenciesValid templateItem state.1 param = true ∧ usageFilter ≠ "" then
        (state.1.set ParamUsage (Value.str usageFilter), state.2)
      else state := by
  have hne : ParamUsage ≠ ParamModbus := by decide
  unfold processParam processParamSwitch
  rw [hname, if_neg hne]
  by_cases hv : dependenciesValid templateItem state.1 param = true
  · by_cases hf : usageFilter = "" <;> simp [hv, hf]
  · simp [hv]

theorem processParamsFrom_usage_none (env : Env) (templateItem : Template)
    (deviceCategory : DeviceCategory) (params : List Param) (state : Values × CmdConfigure)
    (hfilter : (env.DeviceCategories deviceCategory).categoryFilter = "")
    (hstate : state.1.get ParamUsage = none) :
    (processParamsFrom env templateItem deviceCategory params state).1.get ParamUsage
      = none := by
  unfold processParamsFrom
  induction params generalizing state with
  | nil => exact hstate
  | cons p rest ih =>
    rw [List.foldl_cons]
    apply ih
    by_cases hp : p.Name = ParamUsage
    · rw [processParam_usage _ _ _ _ _ hp, hfilter]
      simpa using hstate
    · rw [processParam_get_of_ne _ _ _ _ _ _ hp]
      exact hstate

theorem processParamsFrom_usage_some (env : Env) (templateItem : Template)
    (deviceCategory : DeviceCategory) (params : List Param) (state : Values × CmdConfigure)
    (hstate : state.1.get ParamUsage
      = some (Value.str (env.DeviceCategories deviceCategory).categoryFilter)) :
    (processParamsFrom env templateItem deviceCategory params state).1.get ParamUsage
      = some (Value.str (env.DeviceCategories deviceCategory).categoryFilter) := by
  unfold processParamsFrom
  induction params generalizing state with
  | nil => exact hstate
  | cons p rest ih =>
    rw [List.foldl_cons]
    apply ih
    by_cases hp : p.Name = ParamUsage
    · rw [processParam_usage _ _ _ _ _ hp]
      split
      · exact Values.get_set_self _ _ _
      · exact hstate
    · rw [processParam_get_of_ne _ _ _ _ _ _ hp]
      exact hstate

/-- C8 (as stated, refuted): `dependentUsageTemplate` has a parameter named "usage"
and the category filter of PV meters is "pv", and the map that `processParams`
returns has no entry "usage": the dependency of the usage parameter does not
hold. -/
theorem dependent_usage_is_skipped :
    (∃ p ∈ dependentUsageTemplate.Params, p.Name = "usage")
    ∧ (sampleEnv.DeviceCategories DeviceCategory.DeviceCategoryPVMeter).categoryFilter = "pv"
    ∧ (processParams sampleEnv dependentUsageTemplate DeviceCategory.DeviceCategoryPVMeter
        (freshSession ["true"] [] [])).1.get "usage" = none := by
  decide

/-- C8 (amended): for every template with a parameter P named "usage": when the
category filter of the device category is non-empty and the dependencies of P hold
when the loop reaches it, the map returned by `processParams` maps "usage" to the
category filter's string value; when the category filter is empty the map has no
key "usage"; in both cases the round of the loop for P leaves the session as it
was (no prompt is invoked for P). -/
theorem usage_from_category_filter (env : Env) (templateItem : Template)
    (deviceCategory : DeviceCategory) (c : CmdConfigure) (pre post : List Param) (P : Param)
    (hparams : templateItem.Params = pre ++ P :: post)
    (hname : P.Name = ParamUsage)
    (hvalid : (env.DeviceCategories deviceCategory).categoryFilter ≠ "" →
      dependenciesValid templateItem
        (processParamsFrom env templateItem deviceCategory pre ([], c)).1 P = true) :
    (processParams env templateItem deviceCategory c).1.get ParamUsage
        = (if (env.DeviceCategories deviceCategory).categoryFilter = "" then none
           else some (Value.str (env.DeviceCategories deviceCategory).categoryFilter))
    ∧ (processParam env templateItem (env.DeviceCategories deviceCategory).categoryFilter
        (processParamsFrom env templateItem deviceCategory pre ([], c)) P).2
        = (processParamsFrom env templateItem deviceCategory pre ([], c)).2 := by
  constructor
  · by_cases hf : (env.DeviceCategories deviceCategory).categoryFilter = ""
    · rw [if_pos hf]
      exact processParamsFrom_usage_none env templateItem deviceCategory _ _ hf rfl
    · rw [if_neg hf, processParams_split env templateItem deviceCategory c pre post P hparams]
      apply processParamsFrom_usage_some
      rw [processParam_usage _ _ _ _ _ hname, if_pos ⟨hvalid hf, hf⟩]
      exact Values.get_set_self _ _ _
  · rw [processParam_usage _ _ _ _ _ hname]
    split <;> rfl

/-- C8 (amended), at `usageTemplate` for a PV meter: "usage" is mapped to "pv". -/
theorem usage_from_category_filter_witness :
    (processParams sampleEnv usageTemplate DeviceCategory.DeviceCategoryPVMeter
        (freshSession ["192.0.2.1", "502"] [] [])).1.get ParamUsage
        = (if (sampleEnv.DeviceCategories DeviceCategory.DeviceCategoryPVMeter).categoryFilter
              = "" then none
           else some (Value.str
            (sampleEnv.DeviceCategories DeviceCategory.DeviceCategoryPVMeter).categoryFilter))
    ∧ (processParam sampleEnv usageTemplate
        (sampleEnv.DeviceCategories DeviceCategory.DeviceCategoryPVMeter).categoryFilter
        (processParamsFrom sampleEnv usageTemplate DeviceCategory.DeviceCategoryPVMeter
          [plainParam "host" ""] ([], freshSession ["192.0.2.1", "502"] [] []))
        (plainParam ParamUsage "")).2
        = (processParamsFrom sampleEnv usageTemplate DeviceCategory.DeviceCategoryPVMeter
          [plainParam "host" ""] ([], freshSession ["192.0.2.1", "502"] [] [])).2 :=
  usage_from_category_filter sampleEnv usageTemplate DeviceCategory.DeviceCategoryPVMeter
    (freshSession ["192.0.2.1", "502"] [] []) [plainParam "host" ""] [plainParam "port" ""]
    (plainParam ParamUsage "") rfl rfl (fun _ => by decide)

/-! ## The modbus interface -/

theorem modbusChoices_length (env : Env) (lang : String) (config : ModbusConfig)
    (keys : List String) :
    (modbusChoices env lang config keys).1.length
      = (modbusChoices env lang config keys).2.length := by
  induction keys with
  | nil => rfl
  | cons key rest ih =>
    unfold modbusChoices
    simp only []
    split <;> simp [ih]

theorem ParamByNameFrom_found (name : String) (params : List Param) (start i : Int)
    (p : Param) (hstart : 0 ≤ start) (h : ParamByNameFrom name params start = (i, p))
    (hi : i ≠ -1) :
    start ≤ i ∧ params[(i - start).toNat]? = some p ∧ p.Name = name := by
  induction params generalizing start with
  | nil =>
    simp only [ParamByNameFrom, Prod.mk.injEq] at h
    exact absurd h.1.symm hi
  | cons q rest ih =>
    unfold ParamByNameFrom at h
    split at h
    · rename_i hq
      simp only [Prod.mk.injEq] at h
      obtain ⟨h1, h2⟩ := h
      subst h1 h2
      simp [hq]
    · obtain ⟨h1, h2, h3⟩ := ih (start + 1) (by omega) h
      refine ⟨by omega, ?_, h3⟩
      have : (i - start).toNat = (i - (start + 1)).toNat + 1 := by omega
      rw [this]
      simpa using h2

theorem Template.ParamByName_found (t : Template) (name : String) (i : Int) (p : Param)
    (h : t.ParamByName name = (i, p)) (hi : i ≠ -1) :
    t.Params[i.toNat]? = some p ∧ p.Name = name := by
  have := ParamByNameFrom_found name t.Params 0 i p (le_refl 0) h hi
  simpa using this.2

/-- C6 (as stated, refuted): the modbus parameter of `modbusTemplate ["rs485"]`
lists exactly one choice key, the key has an entry in the interface table, and
`processModbusConfig` invokes `askChoice`: the entry stands for two interface
types. -/
theorem single_key_is_asked :
    ((modbusTemplate ["rs485"]).ParamByName ParamModbus).2.Choice = ["rs485"]
    ∧ (modbusTemplate ["rs485"]).ConfigDefaults.Modbus.interface "rs485"
        = some ["rs485serial", "rs485tcpip"]
    ∧ (processModbusConfig sampleEnv (modbusTemplate ["rs485"]) (DeviceCategory.other "meter")
        (freshSession [] [] [1])).map (fun r => r.2.log)
        = some [Event.askChoice "Config_ModbusInterface"
            ["Serial (USB-RS485 Adapter)", "Serial (Ethernet-RS485 Adapter)"] 1] := by
  decide

/-- C6 (amended): for every template with a modbus parameter whose choice keys
with an entry in the interface table stand for exactly one interface type
altogether, `processModbusConfig` does not invoke `askChoice` (the session is left
as it was) and selects that type: the `Value` of the modbus parameter is set to it
in the template that is handed on to `ModbusParams` and `ModbusValues`. -/
theorem single_interface_type_is_selected (env : Env) (templateItem : Template)
    (deviceCategory : DeviceCategory) (c : CmdConfigure) (modbusIndex : Int)
    (modbusParam : Param) (choiceType : String)
    (hmodbus : templateItem.ParamByName ParamModbus = (modbusIndex, modbusParam))
    (hindex : modbusIndex ≠ -1)
    (hsingle : (modbusChoices env c.lang templateItem.ConfigDefaults.Modbus
      modbusParam.Choice).2 = [choiceType]) :
    processModbusConfig env templateItem deviceCategory c
        = some (env.ModbusValues
            (env.ModbusParams (templateItem.setParamValue modbusIndex choiceType)
              choiceType []).1
            TemplateRenderModeInstance
            (env.ModbusParams (templateItem.setParamValue modbusIndex choiceType)
              choiceType []).2, c)
    ∧ (templateItem.setParamValue modbusIndex choiceType).Params[modbusIndex.toNat]?
        = some { modbusParam with Value := choiceType } := by
  have hlen := modbusChoices_length env c.lang templateItem.ConfigDefaults.Modbus
    modbusParam.Choice
  rw [hsingle] at hlen
  constructor
  · unfold processModbusConfig
    simp only [hmodbus, hindex, if_false]
    rcases hc : modbusChoices env c.lang templateItem.ConfigDefaults.Modbus
      modbusParam.Choice with ⟨choices, choiceTypes⟩
    rw [hc] at hlen hsingle
    simp only at hlen hsingle
    simp [hlen, hsingle]
  · have hfound := (Template.ParamByName_found templateItem ParamModbus modbusIndex
      modbusParam hmodbus hindex).1
    simp [Template.setParamValue, hfound]

/-- C6 (amended), at `modbusTemplate ["tcpip"]`: the interface type "tcpip" is
selected without a question. -/
theorem single_interface_type_is_selected_witness :
    processModbusConfig sampleEnv (modbusTemplate ["tcpip"]) (DeviceCategory.other "meter")
          (freshSession [] [] [])
        = some (sampleEnv.ModbusValues
            (sampleEnv.ModbusParams ((modbusTemplate ["tcpip"]).setParamValue 1 "tcpip")
              "tcpip" []).1
            TemplateRenderModeInstance
            (sampleEnv.ModbusParams ((modbusTemplate ["tcpip"]).setParamValue 1 "tcpip")
              "tcpip" []).2, freshSession [] [] [])
    ∧ ((modbusTemplate ["tcpip"]).setParamValue 1 "tcpip").Params[(1 : Int).toNat]?
        = some { ({ plainParam ParamModbus "" with Choice := ["tcpip"] } : Param) with
            Value := "tcpip" } :=
  single_interface_type_is_selected sampleEnv (modbusTemplate ["tcpip"])
    (DeviceCategory.other "meter") (freshSession [] [] []) 1
    { plainParam ParamModbus "" with Choice := ["tcpip"] } "tcpip" (by decide) (by decide)
    (by decide)

/-! ## The device index -/

theorem wrapInt_of_inRange (x : Int) (hlow : -(2 ^ 63) ≤ x) (hhigh : x < 2 ^ 63) :
    wrapInt x = x := by
  unfold wrapInt
  omega

theorem wrapInt_increment_decrement (x : Int) :
    wrapInt (wrapInt (x + 1) - 1) = wrapInt x := by
  unfold wrapInt
  omega

theorem askYesNo_addedDeviceIndex (label : String) (c : CmdConfigure) :
    (askYesNo label c).2.addedDeviceIndex = c.addedDeviceIndex := by
  unfold askYesNo; split <;> rfl

theorem renderDevice_index (env : Env) (values : Values) (templateItem : Template)
    (device : Configure.device) (c : CmdConfigure) :
    ((renderDevice env values templateItem device c).1.2 ≠ none →
        (renderDevice env values templateItem device c).2.addedDeviceIndex
          = wrapInt (c.addedDeviceIndex - 1))
    ∧ ((renderDevice env values templateItem device c).1.2 = none →
        (renderDevice env values templateItem device c).2.addedDeviceIndex
          = c.addedDeviceIndex)
    ∧ (renderDevice env values templateItem device c).1.1.Name = device.Name := by
  unfold renderDevice
  simp only []
  split
  · split <;> simp [CmdConfigure.decrementIndex]
  · split <;> simp [CmdConfigure.decrementIndex]

theorem renderDevice_index_of_eq (env : Env) (values : Values) (templateItem : Template)
    (device : Configure.device) (c c' : CmdConfigure)
    (result : Configure.device × Option Error)
    (h : renderDevice env values templateItem device c = (result, c')) :
    (result.2 ≠ none → c'.addedDeviceIndex = wrapInt (c.addedDeviceIndex - 1))
    ∧ (result.2 = none → c'.addedDeviceIndex = c.addedDeviceIndex)
    ∧ result.1.Name = device.Name := by
  have := renderDevice_index env values templateItem device c
  rw [h] at this
  exact this

/-- C10: for a session whose `addedDeviceIndex` is an `int` below the largest one,
every call of `processDeviceValues` that returns an error leaves
`addedDeviceIndex` at its value before the call, and every call that returns no
error leaves it exactly one greater and returns a device whose `Name` is the
category's default name followed by that new index. -/
theorem processDeviceValues_index (env : Env) (values : Values) (templateItem : Template)
    (device : Configure.device) (deviceCategory : DeviceCategory) (c c' : CmdConfigure)
    (result : Configure.device × Option Error)
    (hlow : -(2 ^ 63) ≤ c.addedDeviceIndex) (hhigh : c.addedDeviceIndex < 2 ^ 63 - 1)
    (hcall : processDeviceValues env values templateItem device deviceCategory c
      = some (result, c')) :
    (result.2 ≠ none → c'.addedDeviceIndex = c.addedDeviceIndex)
    ∧ (result.2 = none →
        c'.addedDeviceIndex = c.addedDeviceIndex + 1
        ∧ result.1.Name = (env.DeviceCategories deviceCategory).defaultName
            ++ toString (c.addedDeviceIndex + 1)) := by
  have hinc : wrapInt (c.addedDeviceIndex + 1) = c.addedDeviceIndex + 1 :=
    wrapInt_of_inRange _ (by omega) (by omega)
  have hdec' : wrapInt c.addedDeviceIndex = c.addedDeviceIndex :=
    wrapInt_of_inRange _ hlow (by omega)
  have hdec : wrapInt (c.addedDeviceIndex + 1 - 1) = c.addedDeviceIndex := by
    rw [Int.add_sub_cancel]
    exact hdec'
  unfold processDeviceValues at hcall
  simp only [CmdConfigure.incrementIndex, hinc] at hcall
  split at hcall
  · exact absurd hcall (by simp)
  · split at hcall
    · split at hcall
      · have hcall := Option.some.inj hcall
        simp only [Prod.mk.injEq] at hcall
        obtain ⟨hr, hc⟩ := hcall
        subst hr hc
        simp [CmdConfigure.decrementIndex, askYesNo_addedDeviceIndex, CmdConfigure.record,
          hdec, hdec']
      · have hcall := Option.some.inj hcall
        have h := renderDevice_index_of_eq env values templateItem _ _ _ _ hcall
        obtain ⟨h1, h2, h3⟩ := h
        simp only [askYesNo_addedDeviceIndex, CmdConfigure.record, hdec] at h1 h2
        exact ⟨h1, fun hn => ⟨h2 hn, h3⟩⟩
    · have hcall := Option.some.inj hcall
      have h := renderDevice_index_of_eq env values templateItem _ _ _ _ hcall
      obtain ⟨h1, h2, h3⟩ := h
      simp only [CmdConfigure.record, hdec] at h1 h2
      refine ⟨h1, fun hn => ⟨h2 hn, ?_⟩⟩
      rw [h3]
      split <;> rfl

/-- C10, at a PV meter in a fresh session: a call whose device test succeeds
returns the device "pv1" and leaves the index at 1, and a call whose device test
fails and that the user gives up leaves the index at 0. -/
theorem processDeviceValues_index_witness :
    (((pvDevice, (none : Option Error)).2 ≠ none →
        sessionAfterAdding.addedDeviceIndex = (freshSession [] [] []).addedDeviceIndex)
      ∧ ((pvDevice, (none : Option Error)).2 = none →
        sessionAfterAdding.addedDeviceIndex = (freshSession [] [] []).addedDeviceIndex + 1
        ∧ (pvDevice, (none : Option Error)).1.Name
          = (sampleEnv.DeviceCategories DeviceCategory.DeviceCategoryPVMeter).defaultName
            ++ toString ((freshSession [] [] []).addedDeviceIndex + 1)))
    ∧ (((pvDevice, (some "device not valid" : Option Error)).2 ≠ none →
        sessionAfterGivingUp.addedDeviceIndex = (freshSession [] [false] []).addedDeviceIndex)
      ∧ ((pvDevice, (some "device not valid" : Option Error)).2 = none →
        sessionAfterGivingUp.addedDeviceIndex
          = (freshSession [] [false] []).addedDeviceIndex + 1
        ∧ (pvDevice, (some "device not valid" : Option Error)).1.Name
          = (failingTestEnv.DeviceCategories DeviceCategory.DeviceCategoryPVMeter).defaultName
            ++ toString ((freshSession [] [false] []).addedDeviceIndex + 1))) :=
  ⟨processDeviceValues_index sampleEnv [] (plainTemplate []) blankDevice
      DeviceCategory.DeviceCategoryPVMeter (freshSession [] [] []) sessionAfterAdding
      (pvDevice, none) (by decide) (by decide) (by decide),
    processDeviceValues_index failingTestEnv [] (plainTemplate []) blankDevice
      DeviceCategory.DeviceCategoryPVMeter (freshSession [] [false] []) sessionAfterGivingUp
      (pvDevice, some "device not valid") (by decide) (by decide) (by decide)⟩

/-! ## What the requirement blocks change in the session -/

theorem askValue_log (q : question) (c : CmdConfigure) :
    (askValue q c).2.log = c.log ++ [Event.askValue q (askValue q c).1] := by
  unfold askValue; split <;> rfl

theorem askYesNo_log (label : String) (c : CmdConfigure) :
    (askYesNo label c).2.log = c.log ++ [Event.askYesNo label (askYesNo label c).1] := by
  unfold askYesNo; split <;> rfl

theorem askValue_configuration (q : question) (c : CmdConfigure) :
    (askValue q c).2.configuration = c.configuration := by
  unfold askValue; split <;> rfl

theorem askYesNo_configuration (label : String) (c : CmdConfigure) :
    (askYesNo label c).2.configuration = c.configuration := by
  unfold askYesNo; split <;> rfl

theorem askYesNo_lang (label : String) (c : CmdConfigure) :
    (askYesNo label c).2.lang = c.lang := by
  unfold askYesNo; split <;> rfl

theorem askSponsortoken_ok (env : Env) (required feature : Bool) (c c' : CmdConfigure)
    (h : askSponsortoken env required feature c = (none, c')) :
    Event.askValue (sponsortokenQuestion env c.lang) c'.configuration.config.SponsorToken
      ∈ c'.log := by
  unfold askSponsortoken at h
  simp only [] at h
  split at h
  · simp at h
  · split at h
    · split at h
      · simp only [Prod.mk.injEq, true_and] at h
        subst h
        simp [CmdConfigure.setSponsorToken, CmdConfigure.record, askYesNo_log, askValue_log,
          askYesNo_lang]
      · simp at h
    · simp only [Prod.mk.injEq, true_and] at h
      subst h
      simp [CmdConfigure.setSponsorToken, CmdConfigure.record, askValue_log, askYesNo_lang]

theorem configureMQTTLoop_configuration (env : Env) (templateItem : Template) (fuel : Nat)
    (err : Error) (c : CmdConfigure) :
    (configureMQTTLoop env templateItem fuel err c).2.configuration = c.configuration := by
  induction fuel generalizing err c with
  | zero => rfl
  | succ n ih =>
    unfold configureMQTTLoop
    simp only []
    split
    · simp [CmdConfigure.record, askValue_configuration]
    · split
      · simp [CmdConfigure.record, askValue_configuration, askYesNo_configuration]
      · rw [ih]
        simp [CmdConfigure.record, askValue_configuration, askYesNo_configuration]

theorem configureMQTTLoop_log (env : Env) (templateItem : Template) (fuel : Nat)
    (err : Error) (c : CmdConfigure) (e : Event) (he : e ∈ c.log) :
    e ∈ (configureMQTTLoop env templateItem fuel err c).2.log := by
  induction fuel generalizing err c with
  | zero => exact he
  | succ n ih =>
    unfold configureMQTTLoop
    simp only []
    split
    · simp [CmdConfigure.record, askValue_log, he]
    · split
      · simp [CmdConfigure.record, askValue_log, askYesNo_log, he]
      · apply ih
        simp [CmdConfigure.record, askValue_log, askYesNo_log, he]

theorem requireSponsorship_ok (env : Env) (templateItem : Template) (c c' : CmdConfigure)
    (h : requireSponsorship env templateItem c = (none, c'))
    (hreq : templateItem.Requirements.EVCC.contains RequirementSponsorship = true) :
    c'.configuration.config.SponsorToken ≠ ""
      ∨ Event.askValue (sponsortokenQuestion env c.lang) c'.configuration.config.SponsorToken
          ∈ c'.log := by
  unfold requireSponsorship at h
  split at h
  · exact Or.inr (askSponsortoken_ok env true false c c' h)
  · rename_i hcond
    simp only [Prod.mk.injEq, true_and] at h
    subst h
    simp only [hreq, Bool.true_and, beq_iff_eq] at hcond
    exact Or.inl hcond

theorem requireMQTT_sponsorToken (env : Env) (templateItem : Template) (c : CmdConfigure) :
    (requireMQTT env templateItem c).2.configuration.config.SponsorToken
      = c.configuration.config.SponsorToken := by
  have h := configureMQTTLoop_configuration env templateItem (c.yesNo.length + 1) "" c
  unfold requireMQTT configureMQTT
  split
  · split
    · rename_i heq
      rw [heq] at h
      simp only at h
      simp [h]
    · rename_i heq
      rw [heq] at h
      simp only at h
      split <;> simp [h, CmdConfigure.setMQTT]
  · rfl

theorem requireMQTT_log (env : Env) (templateItem : Template) (c : CmdConfigure) (e : Event)
    (he : e ∈ c.log) : e ∈ (requireMQTT env templateItem c).2.log := by
  have h := configureMQTTLoop_log env templateItem (c.yesNo.length + 1) "" c e he
  unfold requireMQTT configureMQTT
  split
  · split
    · rename_i heq
      rw [heq] at h
      exact h
    · rename_i heq
      rw [heq] at h
      split
      · exact h
      · exact h
  · exact he

theorem requireMQTT_ok (env : Env) (templateItem : Template) (c c' : CmdConfigure)
    (hyaml : ∀ doc, env.yamlMarshal doc ≠ Except.ok "")
    (h : requireMQTT env templateItem c = (none, c'))
    (hreq : templateItem.Requirements.EVCC.contains RequirementMQTT = true) :
    c'.configuration.config.MQTT ≠ "" := by
  unfold requireMQTT at h
  split at h
  · split at h
    · simp at h
    · split at h
      · simp at h
      · rename_i hdoc
        simp only [Prod.mk.injEq, true_and] at h
        subst h
        intro h0
        apply hyaml _
        rw [hdoc]
        exact congrArg Except.ok h0
  · rename_i hcond
    simp only [Prod.mk.injEq, true_and] at h
    subst h
    simp only [hreq, Bool.true_and, beq_iff_eq] at hcond
    exact hcond

theorem requireEEBUS_frame (env : Env) (templateItem : Template) (c : CmdConfigure) :
    (requireEEBUS env templateItem c).2.configuration.config.SponsorToken
        = c.configuration.config.SponsorToken
    ∧ (requireEEBUS env templateItem c).2.configuration.config.MQTT
        = c.configuration.config.MQTT
    ∧ ∀ e, e ∈ c.log → e ∈ (requireEEBUS env templateItem c).2.log := by
  unfold requireEEBUS
  simp only []
  split
  · split
    · split
      · simp only [CmdConfigure.record, List.mem_append, true_and]
        exact fun e he => Or.inl he
      · split
        · simp only [CmdConfigure.record, List.mem_append, true_and]
          exact fun e he => Or.inl (Or.inl he)
        · split <;> simp only [CmdConfigure.record, CmdConfigure.setEEBUS, List.mem_append,
            true_and]
          · exact fun e he => Or.inl (Or.inl he)
          · exact fun e he => Or.inl (Or.inl (Or.inl he))
    · simp only [CmdConfigure.record, List.mem_append, true_and]
      exact fun e he => Or.inl he
  · simp

theorem requireEEBUS_ok (env : Env) (templateItem : Template) (c c' : CmdConfigure)
    (hyaml : ∀ doc, env.yamlMarshal doc ≠ Except.ok "")
    (h : requireEEBUS env templateItem c = (none, c'))
    (hreq : templateItem.Requirements.EVCC.contains RequirementEEBUS = true) :
    c'.configuration.config.EEBUS ≠ "" := by
  unfold requireEEBUS at h
  simp only [hreq, if_true] at h
  split at h
  · split at h
    · simp at h
    · split at h
      · simp at h
      · split at h
        · simp at h
        · rename_i hdoc
          simp only [Prod.mk.injEq, true_and] at h
          subst h
          simp only [CmdConfigure.record, CmdConfigure.setEEBUS]
          intro h0
          apply hyaml _
          rw [hdoc]
          exact congrArg Except.ok h0
  · rename_i hcond
    simp only [Prod.mk.injEq, true_and] at h
    subst h
    simpa [CmdConfigure.record] using hcond

/-! ## Requirements that are met already -/

theorem requiredAnswered_mem (log : List Event) (h : requiredAnswered log = true)
    (q : question) (answer : String) (hmem : Event.askValue q answer ∈ log)
    (hq : q.required = true) : answer ≠ "" := by
  unfold requiredAnswered at h
  rw [List.all_eq_true] at h
  have := h _ hmem
  simpa [hq] using this

theorem requireSponsorship_met (env : Env) (templateItem : Template) (c : CmdConfigure)
    (h : templateItem.Requirements.EVCC.contains RequirementSponsorship = true →
      c.configuration.config.SponsorToken ≠ "") :
    requireSponsorship env templateItem c = (none, c) := by
  unfold requireSponsorship
  split
  · rename_i hcond
    simp only [Bool.and_eq_true, beq_iff_eq] at hcond
    exact absurd hcond.2 (h hcond.1)
  · rfl

theorem requireMQTT_met (env : Env) (templateItem : Template) (c : CmdConfigure)
    (h : templateItem.Requirements.EVCC.contains RequirementMQTT = true →
      c.configuration.config.MQTT ≠ "") :
    requireMQTT env templateItem c = (none, c) := by
  unfold requireMQTT
  split
  · rename_i hcond
    simp only [Bool.and_eq_true, beq_iff_eq] at hcond
    exact absurd hcond.2 (h hcond.1)
  · rfl

theorem requireEEBUS_met (env : Env) (templateItem : Template) (c : CmdConfigure)
    (h : templateItem.Requirements.EVCC.contains RequirementEEBUS = true →
      c.configuration.config.EEBUS ≠ "") :
    requireEEBUS env templateItem c
      = (none, if templateItem.Requirements.EVCC.contains RequirementEEBUS = true
          then c.record Event.Scanln else c) := by
  unfold requireEEBUS
  split
  · rename_i hreq
    have := h hreq
    simp [this]
  · rfl

theorem processParamRequirements_met (env : Env) (param : Param) (c : CmdConfigure)
    (h : c.configuration.config.SponsorToken ≠ "") :
    processParamRequirements env param c = (none, c) := by
  unfold processParamRequirements
  simp [h]

/-- C9: when a first call of `processDeviceRequirements` returns without error,
a second call on the resulting session returns without error and leaves the
session as it is, but for the record of waiting for the EEBUS pairing when the
template requires EEBUS: no sponsor token is asked for, `ConfigureSponsorship`,
`configureMQTT` and `eebusCertificate` are not called, and the stored
`SponsorToken`, `MQTT` and `EEBUS` are unchanged; and when the template requires a
sponsorship, `processParamRequirements` of any parameter leaves the session as it
is too. This holds for collaborators that keep to their contracts: no question
flagged `required` was answered with the empty string, and `yaml.Marshal` never
yields an empty document. -/
theorem requirements_satisfied_once (env : Env) (templateItem : Template)
    (c c₁ : CmdConfigure)
    (hfirst : processDeviceRequirements env templateItem c = (none, c₁))
    (hrequired : requiredAnswered c₁.log = true)
    (hyaml : ∀ doc, env.yamlMarshal doc ≠ Except.ok "") :
    processDeviceRequirements env templateItem c₁
        = (none, if templateItem.Requirements.EVCC.contains RequirementEEBUS = true
            then c₁.record Event.Scanln else c₁)
    ∧ (templateItem.Requirements.EVCC.contains RequirementSponsorship = true →
        ∀ param, processParamRequirements env param c₁ = (none, c₁)) := by
  unfold processDeviceRequirements at hfirst
  rcases hS : requireSponsorship env templateItem c with ⟨eS, cS⟩
  rw [hS] at hfirst
  cases eS with
  | some err => simp at hfirst
  | none =>
    simp only at hfirst
    rcases hM : requireMQTT env templateItem cS with ⟨eM, cM⟩
    rw [hM] at hfirst
    cases eM with
    | some err => simp at hfirst
    | none =>
      simp only at hfirst
      have hframe := requireEEBUS_frame env templateItem cM
      rw [hfirst] at hframe
      obtain ⟨hEtoken, hEmqtt, hElog⟩ := hframe
      simp only at hEtoken hEmqtt hElog
      have hMtoken := requireMQTT_sponsorToken env templateItem cS
      have hMlog := requireMQTT_log env templateItem cS
      rw [hM] at hMtoken hMlog
      simp only at hMtoken hMlog
      have htoken : templateItem.Requirements.EVCC.contains RequirementSponsorship = true →
          c₁.configuration.config.SponsorToken ≠ "" := by
        intro hreq
        rw [hEtoken, hMtoken]
        rcases requireSponsorship_ok env templateItem c cS hS hreq with h | h
        · exact h
        · apply requiredAnswered_mem c₁.log hrequired (sponsortokenQuestion env c.lang)
          · exact hElog _ (hMlog _ h)
          · rfl
      have hmqtt : templateItem.Requirements.EVCC.contains RequirementMQTT = true →
          c₁.configuration.config.MQTT ≠ "" := by
        intro hreq
        rw [hEmqtt]
        exact requireMQTT_ok env templateItem cS cM hyaml hM hreq
      have heebus : templateItem.Requirements.EVCC.contains RequirementEEBUS = true →
          c₁.configuration.config.EEBUS ≠ "" :=
        fun hreq => requireEEBUS_ok env templateItem cM c₁ hyaml hfirst hreq
      constructor
      · unfold processDeviceRequirements
        rw [requireSponsorship_met env templateItem c₁ htoken]
        simp only
        rw [requireMQTT_met env templateItem c₁ hmqtt]
        simp only
        exact requireEEBUS_met env templateItem c₁ heebus
      · intro hreq param
        exact processParamRequirements_met env param c₁ (htoken hreq)

theorem sampleYaml_ne_empty (doc : List (String × String)) : sampleYaml doc ≠ "" := by
  intro h
  have hlen := congrArg String.length h
  match doc with
  | [] => exact absurd hlen (by decide)
  | [(k, v)] =>
    simp only [sampleYaml, String.length_append] at hlen
    have h0 : "".length = 0 := by decide
    have h2 : ": ".length = 2 := by decide
    omega
  | (k, v) :: e :: rest =>
    simp only [sampleYaml, String.length_append] at hlen
    have h0 : "".length = 0 := by decide
    have h2 : ": ".length = 2 := by decide
    omega

/-- C9, at `demandingTemplate`: after the user entered a token and a broker, a
second call only waits for the EEBUS pairing. -/
theorem requirements_satisfied_once_witness :
    processDeviceRequirements sampleEnv demandingTemplate demandingSessionDone
        = (none, if demandingTemplate.Requirements.EVCC.contains RequirementEEBUS = true
            then demandingSessionDone.record Event.Scanln else demandingSessionDone)
    ∧ (demandingTemplate.Requirements.EVCC.contains RequirementSponsorship = true →
        ∀ param, processParamRequirements sampleEnv param demandingSessionDone
          = (none, demandingSessionDone)) :=
  requirements_satisfied_once sampleEnv demandingTemplate demandingSession
    demandingSessionDone (by decide) (by decide)
    (fun doc h => sampleYaml_ne_empty doc (Except.ok.inj h))

/-! ## The bounds on the loops are enough -/

theorem askValue_values_length (q : question) (c : CmdConfigure) :
    (askValue q c).2.values.length = c.values.length - 1 := by
  unfold askValue; split <;> rename_i h <;> simp [h]

theorem askYesNo_values (label : String) (c : CmdConfigure) :
    (askYesNo label c).2.values = c.values := by
  unfold askYesNo; split <;> rfl

theorem askValue_yesNo (q : question) (c : CmdConfigure) :
    (askValue q c).2.yesNo = c.yesNo := by
  unfold askValue; split <;> rfl

theorem askYesNo_yesNo_length (label : String) (c : CmdConfigure)
    (h : (askYesNo label c).1 = true) :
    (askYesNo label c).2.yesNo.length + 1 = c.yesNo.length := by
  unfold askYesNo at h ⊢
  split
  · rename_i hnil
    simp [hnil] at h
  · rename_i hcons
    simp [hcons]

theorem askSponsortoken_values_length (env : Env) (required feature : Bool)
    (c : CmdConfigure) :
    (askSponsortoken env required feature c).2.values.length ≤ c.values.length := by
  unfold askSponsortoken
  simp only []
  split
  · simp [askYesNo_values]
  · split
    · split <;>
        simp [CmdConfigure.setSponsorToken, CmdConfigure.record, askYesNo_values,
          askValue_values_length]
    · simp [CmdConfigure.setSponsorToken, CmdConfigure.record, askYesNo_values,
        askValue_values_length]

theorem processParamRequirements_values_length (env : Env) (param : Param)
    (c : CmdConfigure) :
    (processParamRequirements env param c).2.values.length ≤ c.values.length := by
  unfold processParamRequirements
  split
  · exact askSponsortoken_values_length env true true c
  · exact le_refl _

theorem processInputConfig_values_length (env : Env) (param : Param) (c : CmdConfigure)
    (h : (processInputConfig env param c).1 ≠ "") :
    (processInputConfig env param c).2.values.length < c.values.length := by
  have hpos : 0 < c.values.length := by
    rcases hv : c.values with _ | ⟨v, rest⟩
    · exfalso
      apply h
      have h1 : (askValue (inputQuestion env param c.lang) c).1 = "" := by
        rw [askValue_fst, hv]; rfl
      rw [processInputConfig_eq]
      simp [h1]
    · simp
  rw [processInputConfig_eq]
  split
  · have := processParamRequirements_values_length env param
      (askValue (inputQuestion env param c.lang) c).2
    rw [askValue_values_length] at this
    simp only
    omega
  · rw [askValue_values_length]
    omega

theorem processListInputConfigLoop_fuel_eq (env : Env) (param : Param) (fuel₁ fuel₂ : Nat)
    (values : List String) (c : CmdConfigure)
    (h₁ : c.values.length < fuel₁) (h₂ : c.values.length < fuel₂) :
    processListInputConfigLoop env param fuel₁ values c
      = processListInputConfigLoop env param fuel₂ values c := by
  induction fuel₁ generalizing fuel₂ values c with
  | zero => omega
  | succ n ih =>
    cases fuel₂ with
    | zero => omega
    | succ m =>
      unfold processListInputConfigLoop
      simp only []
      split
      · rfl
      · rename_i hne
        split
        · rfl
        · apply ih
          · rw [askYesNo_values]
            have := processInputConfig_values_length env param c hne
            omega
          · rw [askYesNo_values]
            have := processInputConfig_values_length env param c hne
            omega

/-- The loop of `processListInputConfig` never uses up the rounds it is given:
more rounds give the same result. -/
theorem processListInputConfigLoop_fuel (env : Env) (param : Param) (fuel : Nat)
    (c : CmdConfigure) (h : c.values.length < fuel) :
    processListInputConfigLoop env param fuel [] c = processListInputConfig env param c :=
  processListInputConfigLoop_fuel_eq env param fuel (c.values.length + 1) [] c h
    (Nat.lt_succ_self _)

theorem configureMQTTLoop_fuel_eq (env : Env) (templateItem : Template) (fuel₁ fuel₂ : Nat)
    (err₁ err₂ : Error) (c : CmdConfigure)
    (h₁ : c.yesNo.length < fuel₁) (h₂ : c.yesNo.length < fuel₂) :
    configureMQTTLoop env templateItem fuel₁ err₁ c
      = configureMQTTLoop env templateItem fuel₂ err₂ c := by
  induction fuel₁ generalizing fuel₂ err₁ err₂ c with
  | zero => omega
  | succ n ih =>
    cases fuel₂ with
    | zero => omega
    | succ m =>
      unfold configureMQTTLoop
      simp only []
      split
      · rfl
      · split
        · rfl
        · rename_i hagain
          simp only [Bool.not_eq_true, Bool.not_eq_false'] at hagain
          have hlen := askYesNo_yesNo_length _ _ hagain
          apply ih
          · simp only [CmdConfigure.record, askValue_yesNo] at hlen ⊢
            omega
          · simp only [CmdConfigure.record, askValue_yesNo] at hlen ⊢
            omega

/-- The loop of `configureMQTT` never uses up the rounds it is given: more rounds
give the same result. -/
theorem configureMQTTLoop_fuel (env : Env) (templateItem : Template) (fuel : Nat)
    (err : Error) (c : CmdConfigure) (h : c.yesNo.length < fuel) :
    configureMQTTLoop env templateItem fuel err c = configureMQTT env templateItem c :=
  configureMQTTLoop_fuel_eq env templateItem fuel (c.yesNo.length + 1) err "" c h
    (Nat.lt_succ_self _)

/-! ## When the sponsorship gate fails -/

theorem askYesNo_fst (label : String) (c : CmdConfigure) :
    (askYesNo label c).1 = c.yesNo.headD false := by
  unfold askYesNo; split <;> rename_i h <;> simp [h]

theorem askYesNo_yesNo (label : String) (c : CmdConfigure) :
    (askYesNo label c).2.yesNo = c.yesNo.tail := by
  unfold askYesNo; split <;> rename_i h <;> simp [h]

/-- The method `askSponsortoken` returns an error in two cases: the user declines
to enter a token, or the token is refused by `sponsor.ConfigureSponsorship` and
the user declines to go on with it. -/
theorem askSponsortoken_fails_iff (env : Env) (required feature : Bool) (c : CmdConfigure) :
    (askSponsortoken env required feature c).1 ≠ none ↔
      c.yesNo.headD false = false
      ∨ (env.ConfigureSponsorship (c.values.headD "") ≠ none
          ∧ c.yesNo.tail.headD false = false) := by
  unfold askSponsortoken
  simp only []
  split
  · rename_i hno
    simp only [Bool.not_eq_true', askYesNo_fst] at hno
    simp_all
  · rename_i hyes
    simp only [Bool.not_eq_true', askYesNo_fst, Bool.not_eq_false] at hyes
    split
    · rename_i err herr
      simp only [askValue_fst, askYesNo_values] at herr
      split
      · rename_i hgo
        simp only [askYesNo_fst, CmdConfigure.record, askValue_yesNo, askYesNo_yesNo] at hgo
        simp_all
      · rename_i hgo
        simp only [askYesNo_fst, CmdConfigure.record, askValue_yesNo, askYesNo_yesNo,
          Bool.not_eq_true] at hgo
        simp_all
    · rename_i herr
      simp only [askValue_fst, askYesNo_values] at herr
      simp_all

/-! ## When the model has a result -/

/-- The method `processDeviceValues` returns unless a value under a key that reads
"title" is not a string. -/
theorem processDeviceValues_isSome (env : Env) (values : Values) (templateItem : Template)
    (device : Configure.device) (deviceCategory : DeviceCategory) (c : CmdConfigure) :
    (processDeviceValues env values templateItem device deviceCategory c).isSome
      = (deviceTitle env values templateItem.title).isSome := by
  unfold processDeviceValues
  simp only []
  split
  · rename_i h
    simp [h]
  · rename_i h
    rw [h]
    split
    · split <;> rfl
    · rfl

/-- The method `processModbusConfig` returns unless `askChoice` gives an index
outside the list of choices. -/
theorem processModbusConfig_isSome (env : Env) (templateItem : Template)
    (deviceCategory : DeviceCategory) (c : CmdConfigure)
    (hchoice : ∀ choices : List String, 1 < choices.length →
      c.choices.headD 0 < choices.length) :
    (processModbusConfig env templateItem deviceCategory c).isSome = true := by
  unfold processModbusConfig
  simp only []
  split
  · rfl
  · have hlen := modbusChoices_length env c.lang templateItem.ConfigDefaults.Modbus
      (templateItem.ParamByName ParamModbus).2.Choice
    split
    · rfl
    · rename_i hne
      split
      · rename_i hnone
        exfalso
        rw [List.get?_eq_none] at hnone
        split at hnone
        · rename_i hmany
          have := hchoice _ hmany
          have hfst : ∀ label choices, (askChoice label choices c).1 = c.choices.headD 0 := by
            intro label choices
            unfold askChoice
            split <;> rename_i h <;> simp [h]
          simp only [hfst] at hnone
          omega
        · simp only at hnone
          omega
      · rfl

end Configure
